import Mathlib

/- Verification development for the StravaExportToGPX activity conversion
pipeline (src/strava2gpx.py) against its specification.

Modelling conventions:
- Python floats are modelled exactly as dyadic rationals (`Dyadic`, an
  integer numerator over a fixed power of two).  Every float the program
  manipulates in the verified fragments is such a dyadic rational far inside
  double precision (`180.0 / 2.0 ** 31` is `45 * 2 ^ (-29)` exactly, and its
  products with 32-bit integers stay below `2 ^ 53`), so this arithmetic
  coincides with the Python float computation.
- Python strings are Lean `String`s; the slicing and suffix operations are
  defined on their character lists.
- The file system is a partial map from path to file content; Python
  exceptions become an explicit error type threaded through the pipeline.
- `datetime` values are abstracted to structured records; FIT timestamps are
  abstracted to integers (only their ordering and textual rendering matter).
-/

set_option autoImplicit false

/-- An exactly-represented double: the rational `num / 2 ^ den2`. -/
structure Dyadic where
  num : Int
  den2 : Nat
deriving DecidableEq

/-- The rational value of a `Dyadic`. -/
def Dyadic.toRat (d : Dyadic) : ℚ :=
  (d.num : ℚ) / 2 ^ d.den2

/-- `semicircle_to_degrees` from src/strava2gpx.py:
`semicircles * (180.0 / 2.0 ** 31)`.  The constant `180.0 / 2.0 ** 31` is
exactly `45 / 2 ^ 29`, so the product is the dyadic `semicircles * 45 / 2 ^ 29`. -/
def semicircle_to_degrees (semicircles : Int) : Dyadic :=
  ⟨semicircles * 45, 29⟩

/-- The conversion formula exactly as the specification words it:
`degrees = semicircles * (180.0 / 2^31)`.  Kept separate from the
implementation function so the two can be compared. -/
def degrees_spec (semicircles : Int) : ℚ :=
  (semicircles : ℚ) * (180 / 2 ^ 31)

/-- Round `a / 2 ^ e` to the nearest integer, ties to even — the rounding
`"{:.10f}".format` applies to the (exactly represented) double. -/
def roundHalfEvenDy (a : Int) (e : Nat) : Int :=
  let p : Int := 2 ^ e
  let f := Int.fdiv a p
  let r := a - f * p
  if 2 * r < p then f
  else if p < 2 * r then f + 1
  else if f % 2 = 0 then f else f + 1

/-- Left-pad a digit string with zeros to the given length. -/
def natPad (len : Nat) (s : String) : String :=
  String.mk (List.replicate (len - s.length) '0') ++ s

/-- `"{:.10f}".format(d)`: fixed-point rendering with ten fractional
digits (sign taken from the value, as Python prints `-0.0000000000` for
tiny negative values). -/
def fixed10 (d : Dyadic) : String :=
  let n := roundHalfEvenDy (d.num * 10 ^ 10) d.den2
  let a := n.natAbs
  (if d.num < 0 then "-" else "") ++ toString (a / 10 ^ 10) ++ "." ++ natPad 10 (toString (a % 10 ^ 10))

/-- Python `str.rstrip` with a single-character strip set. -/
def rstrip (s : String) (c : Char) : String :=
  String.mk ((s.data.reverse.dropWhile (fun x => x == c)).reverse)

/-- `format_float_str` from src/strava2gpx.py:
`"{:.10f}".format(number).rstrip("0").rstrip(".")`. -/
def format_float_str (d : Dyadic) : String :=
  rstrip (rstrip (fixed10 d) '0') '.'


/-! ## FIT message stream and the FIT-to-TCX transformer -/

/-- A FIT `record` message as consumed through `get_value`: a timestamp plus
independently optional position, distance, altitude and heart-rate fields.
Timestamps are abstracted to integers. -/
structure RecordMsg where
  timestamp : Int
  position_lat : Option Int
  position_long : Option Int
  distance : Option Dyadic
  altitude : Option Dyadic
  heart_rate : Option Dyadic

/-- A FIT `lap` message: `get_value("start_time")` and `get_value("timestamp")`
(the latter is the lap's end time).  The source also reads
`total_elapsed_time` into a local that is never used afterwards; that dead
local is not modelled. -/
structure LapMsg where
  start_time : Int
  timestamp : Int

/-- A FIT `session` message: sport classification and start timestamp. -/
structure SessionMsg where
  sport : String
  start_time : Int

/-- A parsed FIT file as a queryable message stream (`get_messages`). -/
structure FitActivity where
  sessions : List SessionMsg
  laps : List LapMsg
  records : List RecordMsg

/-- An lxml element: tag, attributes, optional text, children.  Namespace
prefixes are kept inside the tag/attribute strings. -/
inductive XmlNode where
  | elem (tag : String) (attrs : List (String × String)) (text : Option String) (children : List XmlNode)

/-- `timestamp.isoformat() + "Z"` with timestamps abstracted to integers. -/
def isoZ (t : Int) : String :=
  toString t ++ "Z"

/-- `add_tcx_trackpoint` from src/strava2gpx.py: the children appended to a
`Trackpoint` element.  `Time` is unconditional; `Position` (latitude and
longitude converted from semicircles and formatted), `AltitudeMeters`,
`DistanceMeters` and `HeartRateBpm` are emitted only when present, in source
order. -/
def add_tcx_trackpoint (trackpoint : RecordMsg) : List XmlNode :=
  [XmlNode.elem "Time" [] (some (isoZ trackpoint.timestamp)) []]
  ++ (match trackpoint.position_lat, trackpoint.position_long with
      | some la, some lo =>
        [XmlNode.elem "Position" [] none
          [XmlNode.elem "LatitudeDegrees" [] (some (format_float_str (semicircle_to_degrees la))) [],
           XmlNode.elem "LongitudeDegrees" [] (some (format_float_str (semicircle_to_degrees lo))) []]]
      | _, _ => [])
  ++ (match trackpoint.altitude with
      | some alt => [XmlNode.elem "AltitudeMeters" [] (some (format_float_str alt)) []]
      | none => [])
  ++ (match trackpoint.distance with
      | some dist => [XmlNode.elem "DistanceMeters" [] (some (format_float_str dist)) []]
      | none => [])
  ++ (match trackpoint.heart_rate with
      | some hr =>
        [XmlNode.elem "HeartRateBpm" [("xsi:type", "HeartRateInBeatsPerMinute_t")] none
          [XmlNode.elem "Value" [] (some (format_float_str hr)) []]]
      | none => [])

/-- The `Trackpoint` element built for one record message. -/
def trackpointElem (trackpoint : RecordMsg) : XmlNode :=
  XmlNode.elem "Trackpoint" [] none (add_tcx_trackpoint trackpoint)

/-- `add_tcx_lap` from src/strava2gpx.py: a `Lap` element with the start time
as attribute and a `Track` child; the loop over `get_messages("record")`
appends a `Trackpoint` for every record whose timestamp satisfies
`start_time <= tts <= end_time`. -/
def add_tcx_lap (activity : FitActivity) (lap : LapMsg) : XmlNode :=
  let start_time := lap.start_time
  let end_time := lap.timestamp
  let track_children := activity.records.foldl
    (fun acc trackpoint =>
      if start_time ≤ trackpoint.timestamp ∧ trackpoint.timestamp ≤ end_time then
        acc ++ [trackpointElem trackpoint]
      else acc) []
  XmlNode.elem "Lap" [("StartTime", isoZ start_time)] none
    [XmlNode.elem "Track" [] none track_children]

/-- The fixed sport lookup table `SPORT_MAP`. -/
def SPORT_MAP : List (String × String) :=
  [("running", "Running"), ("cycling", "Biking")]

/-- The `xsi:schemaLocation` attribute value set on the TCX document root. -/
def SCHEMA_LOCATION : String :=
  "http://www.garmin.com/xmlschemas/ActivityExtension/v2 "
  ++ "http://www.garmin.com/xmlschemas/ActivityExtensionv2.xsd "
  ++ "http://www.garmin.com/xmlschemas/FatCalories/v1 "
  ++ "http://www.garmin.com/xmlschemas/fatcalorieextensionv1.xsd "
  ++ "http://www.garmin.com/xmlschemas/TrainingCenterDatabase/v2 "
  ++ "http://www.garmin.com/xmlschemas/TrainingCenterDatabasev2.xsd"

/-- The Python errors the modelled fragments can raise. -/
inductive PyError where
  | valueError
  | stopIteration
  | fileNotFound
  | badGzipFile
  | ioError
  | fitParseError
  | indexError
  | keyError (key : String)
  | typeError
  | recursionLimit
deriving DecidableEq

/-- `add_tcx_activity` from src/strava2gpx.py: `next(get_messages("session"))`
raises `StopIteration` on a source with zero session messages; otherwise the
`Activity` element is built with the mapped sport (unknown sports fall back to
"Other"), the session start time as `Id`, and one `Lap` element per lap
message. -/
def add_tcx_activity (activity : FitActivity) : Except PyError XmlNode :=
  match activity.sessions.head? with
  | none => .error .stopIteration
  | some session =>
    let sport := (SPORT_MAP.lookup session.sport).getD "Other"
    let identity := session.start_time
    .ok (XmlNode.elem "Activity" [("Sport", sport)] none
      ([XmlNode.elem "Id" [] (some (isoZ identity)) []]
        ++ activity.laps.map (add_tcx_lap activity)))

/-- `convert_fit_tcx` on an already-parsed FIT stream: the
`TrainingCenterDatabase` document with an `Activities` child wrapping the
activity element. -/
def convert_fit_tcx_doc (activity : FitActivity) : Except PyError XmlNode := do
  let act ← add_tcx_activity activity
  .ok (XmlNode.elem "TrainingCenterDatabase" [("xsi:schemaLocation", SCHEMA_LOCATION)] none
    [XmlNode.elem "Activities" [] none [act]])

/-! ## date_format: the four strptime formats tried in order -/

/-- A `datetime` value as constructed by `strptime` (construction validates
the calendar ranges). -/
structure DateTime where
  year : Nat
  month : Nat
  day : Nat
  hour : Nat
  minute : Nat
  second : Nat
  usecond : Nat
deriving DecidableEq

/-- Numeric value of a decimal digit character. -/
def digitVal (c : Char) : Nat :=
  c.toNat - 48

/-- A two-or-one digit `strptime` field (CPython compiles these to ordered
regex alternatives; all four formats place a non-digit literal after each
numeric field, so greedy two-digit-first matching is equivalent).  A
two-digit match must lie in `[lo2, hi2]`, a one-digit match must be at least
`lo1`. -/
def pTwoOrOne (lo2 hi2 lo1 : Nat) : List Char → Option (Nat × List Char)
  | a :: b :: rest =>
    if a.isDigit ∧ b.isDigit ∧ lo2 ≤ 10 * digitVal a + digitVal b ∧ 10 * digitVal a + digitVal b ≤ hi2
    then some (10 * digitVal a + digitVal b, rest)
    else if a.isDigit ∧ lo1 ≤ digitVal a then some (digitVal a, b :: rest)
    else none
  | [a] => if a.isDigit ∧ lo1 ≤ digitVal a then some (digitVal a, []) else none
  | [] => none

/-- `%Y`: exactly four digits. -/
def pYear4 : List Char → Option (Nat × List Char)
  | a :: b :: c :: d :: rest =>
    if a.isDigit ∧ b.isDigit ∧ c.isDigit ∧ d.isDigit then
      some (1000 * digitVal a + 100 * digitVal b + 10 * digitVal c + digitVal d, rest)
    else none
  | _ => none

/-- A literal character in a `strptime` format. -/
def pChar (c : Char) : List Char → Option (List Char)
  | x :: rest => if x = c then some rest else none
  | [] => none

/-- `%f`: one to six digits, scaled to microseconds. -/
def pFrac (cs : List Char) : Option (Nat × List Char) :=
  let ds := (cs.takeWhile Char.isDigit).take 6
  if ds.length = 0 then none
  else some (ds.foldl (fun acc c => 10 * acc + digitVal c) 0 * 10 ^ (6 - ds.length), cs.drop ds.length)

/-- C-locale abbreviated month names, lowercased (strptime matches them
case-insensitively). -/
def monthAbbrevs : List String :=
  ["jan", "feb", "mar", "apr", "may", "jun", "jul", "aug", "sep", "oct", "nov", "dec"]

/-- `%b`: a three-letter month abbreviation, case-insensitive. -/
def pMonthName : List Char → Option (Nat × List Char)
  | a :: b :: c :: rest =>
    match monthAbbrevs.indexOf? (String.mk [a.toLower, b.toLower, c.toLower]) with
    | some i => some (i + 1, rest)
    | none => none
  | _ => none

/-- `%p`: AM or PM, case-insensitive; `true` means PM. -/
def pAmPm : List Char → Option (Bool × List Char)
  | a :: b :: rest =>
    if a.toLower = 'p' ∧ b.toLower = 'm' then some (true, rest)
    else if a.toLower = 'a' ∧ b.toLower = 'm' then some (false, rest)
    else none
  | _ => none

/-- Days in a month, with the Gregorian leap rule. -/
def daysInMonth (y m : Nat) : Nat :=
  if m = 2 then (if (y % 4 = 0 ∧ y % 100 ≠ 0) ∨ y % 400 = 0 then 29 else 28)
  else if m = 4 ∨ m = 6 ∨ m = 9 ∨ m = 11 then 30
  else 31

/-- The `datetime` constructor's range validation (a failure here surfaces as
`ValueError`, which `date_format` catches before trying the next format). -/
def mkDateTime (y mo d h mi s us : Nat) : Option DateTime :=
  if 1 ≤ y ∧ 1 ≤ d ∧ d ≤ daysInMonth y mo ∧ s ≤ 59 then
    some ⟨y, mo, d, h, mi, s, us⟩
  else none

/-- `"%Y-%m-%dT%H:%M:%S.%fZ"`. -/
def tryFmtIsoFrac (cs0 : List Char) : Option DateTime := do
  let (y, cs) ← pYear4 cs0
  let cs ← pChar '-' cs
  let (mo, cs) ← pTwoOrOne 1 12 1 cs
  let cs ← pChar '-' cs
  let (d, cs) ← pTwoOrOne 1 31 1 cs
  let cs ← pChar 'T' cs
  let (h, cs) ← pTwoOrOne 0 23 0 cs
  let cs ← pChar ':' cs
  let (mi, cs) ← pTwoOrOne 0 59 0 cs
  let cs ← pChar ':' cs
  let (s, cs) ← pTwoOrOne 0 61 0 cs
  let cs ← pChar '.' cs
  let (us, cs) ← pFrac cs
  let cs ← pChar 'Z' cs
  match cs with
  | [] => mkDateTime y mo d h mi s us
  | _ => none

/-- `"%Y-%m-%dT%H:%M:%SZ"`. -/
def tryFmtIsoZ (cs0 : List Char) : Option DateTime := do
  let (y, cs) ← pYear4 cs0
  let cs ← pChar '-' cs
  let (mo, cs) ← pTwoOrOne 1 12 1 cs
  let cs ← pChar '-' cs
  let (d, cs) ← pTwoOrOne 1 31 1 cs
  let cs ← pChar 'T' cs
  let (h, cs) ← pTwoOrOne 0 23 0 cs
  let cs ← pChar ':' cs
  let (mi, cs) ← pTwoOrOne 0 59 0 cs
  let cs ← pChar ':' cs
  let (s, cs) ← pTwoOrOne 0 61 0 cs
  let cs ← pChar 'Z' cs
  match cs with
  | [] => mkDateTime y mo d h mi s 0
  | _ => none

/-- `"%Y-%m-%d %H:%M:%S"`. -/
def tryFmtSpace (cs0 : List Char) : Option DateTime := do
  let (y, cs) ← pYear4 cs0
  let cs ← pChar '-' cs
  let (mo, cs) ← pTwoOrOne 1 12 1 cs
  let cs ← pChar '-' cs
  let (d, cs) ← pTwoOrOne 1 31 1 cs
  let cs ← pChar ' ' cs
  let (h, cs) ← pTwoOrOne 0 23 0 cs
  let cs ← pChar ':' cs
  let (mi, cs) ← pTwoOrOne 0 59 0 cs
  let cs ← pChar ':' cs
  let (s, cs) ← pTwoOrOne 0 61 0 cs
  match cs with
  | [] => mkDateTime y mo d h mi s 0
  | _ => none

/-- `"%b %d, %Y, %I:%M:%S %p"`. -/
def tryFmtLocale (cs0 : List Char) : Option DateTime := do
  let (mo, cs) ← pMonthName cs0
  let cs ← pChar ' ' cs
  let (d, cs) ← pTwoOrOne 1 31 1 cs
  let cs ← pChar ',' cs
  let cs ← pChar ' ' cs
  let (y, cs) ← pYear4 cs
  let cs ← pChar ',' cs
  let cs ← pChar ' ' cs
  let (h12, cs) ← pTwoOrOne 1 12 1 cs
  let cs ← pChar ':' cs
  let (mi, cs) ← pTwoOrOne 0 59 0 cs
  let cs ← pChar ':' cs
  let (s, cs) ← pTwoOrOne 0 61 0 cs
  let cs ← pChar ' ' cs
  let (pm, cs) ← pAmPm cs
  match cs with
  | [] =>
    let h := if pm then (if h12 = 12 then 12 else h12 + 12) else (if h12 = 12 then 0 else h12)
    mkDateTime y mo d h mi s 0
  | _ => none

deriving instance DecidableEq for Except

/-- `date_format` from src/strava2gpx.py: try the four formats in order;
raise `ValueError` when none fully matches. -/
def date_format (text : String) : Except PyError DateTime :=
  match tryFmtIsoFrac text.data <|> tryFmtIsoZ text.data
    <|> tryFmtSpace text.data <|> tryFmtLocale text.data with
  | some d => .ok d
  | none => .error .valueError

/-- Zero-pad a numeral to two digits. -/
def pad2 (n : Nat) : String :=
  natPad 2 (toString n)

/-- Zero-pad a numeral to four digits. -/
def pad4 (n : Nat) : String :=
  natPad 4 (toString n)

/-- `strftime("%Y-%m-%dT%H%M%S")`, used to render the output-file date. -/
def strftimeCompact (d : DateTime) : String :=
  pad4 d.year ++ "-" ++ pad2 d.month ++ "-" ++ pad2 d.day ++ "T"
    ++ pad2 d.hour ++ pad2 d.minute ++ pad2 d.second


/-! ## Filter engine and manifest loader -/

/-- One activity descriptor as produced by `get_activities_csv`. -/
structure ActivityRec where
  id : String
  type : String
  date : String
  gear : String
  filename : String
  activity_count : Nat
  csv_temp_file : String
deriving DecidableEq

/-- Python truthiness of an optional list (`argparse` leaves absent repeated
flags as `None`): `not filter_list` is true for `None` and for `[]`. -/
def pyFalsy (l : Option (List String)) : Bool :=
  match l with
  | none => true
  | some xs => xs.isEmpty

/-- First `n` characters of a Python string slice `s[0:n]`. -/
def pyTake (s : String) (n : Nat) : String :=
  String.mk (s.data.take n)

/-- `matches_filter_types` from src/strava2gpx.py: empty/absent filter passes
everything; otherwise case-insensitive membership of the activity type. -/
def matches_filter_types (activity : ActivityRec) (filter_types : Option (List String)) : Bool :=
  if pyFalsy filter_types then true
  else (filter_types.getD []).any (fun filter_type => filter_type.toLower == activity.type.toLower)

/-- `matches_filter_years` from src/strava2gpx.py: empty/absent filter passes
everything; otherwise exact membership of the first four characters of the
date string. -/
def matches_filter_years (activity_date : String) (filter_years : Option (List String)) : Bool :=
  if pyFalsy filter_years then true
  else (filter_years.getD []).contains (pyTake activity_date 4)

/-- `matches_filter_gear` from src/strava2gpx.py: empty/absent filter passes
everything; otherwise case-insensitive membership of the gear tag. -/
def matches_filter_gear (activity : ActivityRec) (filter_gear : Option (List String)) : Bool :=
  if pyFalsy filter_gear then true
  else (filter_gear.getD []).any (fun gear_filter => gear_filter.toLower == activity.gear.toLower)

/-- A parsed CSV table as handed to `csv.DictReader`: the header line and
the data rows.  `rows` is the sequence of records the reader yields (the
reader skips blank lines, so for a real manifest every row is a non-empty
field list; the model is total and imposes no such restriction). -/
structure Csv where
  header : List String
  rows : List (List String)

/-- A key of a `DictReader` row dict: a column name, or the `restkey`
(`None` by default) under which `DictReader` collects the fields of a row
that is longer than the header. -/
inductive PyKey where
  | str (s : String)
  | noneKey
deriving DecidableEq

/-- How Python renders a dict key in a `KeyError` message. -/
def PyKey.render : PyKey → String
  | .str s => s
  | .noneKey => "None"

/-- A value of a `DictReader` row dict: a field string, the `restval`
(`None` by default) filled in for the columns a short row is missing, or
the list of overflow fields stored under the `restkey`. -/
inductive PyVal where
  | str (s : String)
  | noneVal
  | strList (l : List String)
deriving DecidableEq

/-- The assignment sequence that builds one `DictReader` row dict
(CPython `DictReader.__next__`): `d = dict(zip(fieldnames, row))`, then —
when the row is shorter than the header — `d[key] = restval` (`None`) for
each missing column, or — when it is longer — `d[restkey] = row[lf:]` with
`restkey = None`.  Python dict semantics over this sequence: the last
assignment to a key wins, and key order is first occurrence. -/
def rowAssignments (fieldnames row : List String) : List (PyKey × PyVal) :=
  (fieldnames.zip row).map (fun p => (PyKey.str p.1, PyVal.str p.2))
  ++ (if row.length < fieldnames.length then
        (fieldnames.drop row.length).map (fun k => (PyKey.str k, PyVal.noneVal))
      else [])
  ++ (if fieldnames.length < row.length then
        [(PyKey.noneKey, PyVal.strList (row.drop fieldnames.length))]
      else [])

/-- Insertion-ordered deduplication: duplicates collapse to their first
position, as in a Python dict's key sequence. -/
def pyDedupAux {α : Type} [DecidableEq α] : List α → List α → List α
  | [], _ => []
  | x :: xs, seen => if x ∈ seen then pyDedupAux xs seen else x :: pyDedupAux xs (x :: seen)

/-- Key list (`list(d.keys())`) of a Python dict built from an assignment
sequence. -/
def pyDedup {α : Type} [DecidableEq α] (l : List α) : List α :=
  pyDedupAux l []

/-- Python list indexing `keys[i]`: `IndexError` out of range. -/
def pyIndex {α : Type} (l : List α) (i : Nat) : Except PyError α :=
  match l[i]? with
  | some x => .ok x
  | none => .error .indexError

/-- Last-wins association lookup: the value a Python dict built from an
assignment sequence stores for a key (later assignments overwrite earlier
ones). -/
def lookupLast {κ ν : Type} [DecidableEq κ] (l : List (κ × ν)) (f : κ) : Option ν :=
  match l with
  | [] => none
  | (k, v) :: rest =>
    match lookupLast rest f with
    | some w => some w
    | none => if k = f then some v else none

/-- Python dict subscript `a[field]` on a `DictReader` row dict: the stored
value (a field string, a `restval` `None`, or the `restkey` overflow list),
or `KeyError` when the key is absent. -/
def pyDictGet (fieldnames row : List String) (f : PyKey) : Except PyError PyVal :=
  match lookupLast (rowAssignments fieldnames row) f with
  | some v => .ok v
  | none => .error (.keyError f.render)

/-- One descriptor dict as built by the comprehension in
`get_activities_csv`: field values are whatever the row dict stores, so a
`restval` `None` or a `restkey` overflow list flows into the descriptor
unchanged. -/
structure ActivityDict where
  id : PyVal
  type : PyVal
  date : PyVal
  gear : PyVal
  filename : PyVal
  activity_count : Nat
  csv_temp_file : String
deriving DecidableEq

/-- One element of the list comprehension in `get_activities_csv`: the
descriptor dict built from one row (field lookups in source order: id, type,
date, gear, filename). -/
def csvRow (fieldnames : List String) (activity_count : Nat) (csv_file_name : String)
    (id_field date_field type_field gear_field filename_field : PyKey)
    (a : List String) : Except PyError ActivityDict := do
  let i ← pyDictGet fieldnames a id_field
  let t ← pyDictGet fieldnames a type_field
  let dt ← pyDictGet fieldnames a date_field
  let g ← pyDictGet fieldnames a gear_field
  let f ← pyDictGet fieldnames a filename_field
  .ok { id := i, type := t, date := dt, gear := g, filename := f,
        activity_count := activity_count, csv_temp_file := csv_file_name }

/-- The list comprehension itself: rows are converted left to right and the
first exception aborts the whole comprehension. -/
def csvRows (fieldnames : List String) (activity_count : Nat) (csv_file_name : String)
    (id_field date_field type_field gear_field filename_field : PyKey) :
    List (List String) → Except PyError (List ActivityDict)
  | [] => .ok []
  | a :: rest => do
    let x ← csvRow fieldnames activity_count csv_file_name id_field date_field type_field
      gear_field filename_field a
    let xs ← csvRows fieldnames activity_count csv_file_name id_field date_field type_field
      gear_field filename_field rest
    .ok (x :: xs)

/-- `get_activities_csv` from src/strava2gpx.py (the parsing branch; the
archive branch only extracts the manifest to a temporary file and recurses
into this one).  An empty table short-circuits to `[]`; otherwise the five
positional field keys are taken from the *first row's* dict key list — the
deduplicated header, plus the `restkey` `None` entry when that row is
longer than the header — extended with `"count"` and `"csv_file_name"`, at
the fixed indices 0, 1, 3, 9, 10, and every row is turned into a
descriptor. -/
def get_activities_csv (csv_file : Csv) (csv_file_name : String) :
    Except PyError (List ActivityDict) :=
  let activities := csv_file.rows
  let activity_count := activities.length
  if activity_count = 0 then .ok []
  else do
    let keys := pyDedup ((rowAssignments csv_file.header (activities.headD [])).map Prod.fst)
      ++ [PyKey.str "count", PyKey.str "csv_file_name"]
    let id_field ← pyIndex keys 0
    let date_field ← pyIndex keys 1
    let type_field ← pyIndex keys 3
    let gear_field ← pyIndex keys 9
    let filename_field ← pyIndex keys 10
    csvRows csv_file.header activity_count csv_file_name id_field date_field type_field
      gear_field filename_field activities




/-! ## Paths, file contents and the conversion pipeline -/

/-- Python `str.endswith`, via character lists. -/
def pyEndsWith (s t : String) : Bool :=
  t.data.isSuffixOf s.data

/-- Python `str.startswith`, via character lists. -/
def pyStartsWith (s t : String) : Bool :=
  t.data.isPrefixOf s.data

/-- The slice `name[-7:-3]` (meaningful when the name has at least seven
characters, which the `endswith` guard in `convert_activity` ensures): for
`*.fit.gz` it yields `".fit"`, and similarly for the other wrapped formats. -/
def pySliceM7M3 (s : String) : String :=
  String.mk ((s.data.drop (s.data.length - 7)).take 4)

/-- `os.path.basename` for POSIX paths. -/
def pyBasename (s : String) : String :=
  String.mk ((s.data.reverse.takeWhile (fun c => c ≠ '/')).reverse)

/-- Python `str.replace` on character lists: replace every non-overlapping
occurrence, left to right.  Structural recursion on a fuel that starts at
the list length (every step consumes at least one character and exactly one
unit of fuel, so the fuel never runs out when initialised that way). -/
def pyReplaceL (pat rep : List Char) : Nat → List Char → List Char
  | _, [] => []
  | 0, l => l
  | fuel + 1, c :: rest =>
    if pat.isPrefixOf (c :: rest) ∧ 0 < pat.length then
      rep ++ pyReplaceL pat rep fuel (rest.drop (pat.length - 1))
    else
      c :: pyReplaceL pat rep fuel rest

/-- Python `str.replace`. -/
def pyReplace (s pat rep : String) : String :=
  String.mk (pyReplaceL pat.data rep.data s.data.length s.data)

/-- The content of a file in the modelled file system.  The external
XML-to-XML converter (TCXParser plus gpxpy, declared outside the verified
core by the specification) is abstracted as the injective constructor
`gpxFile`: its output is determined by the source file's content. -/
inductive FileData where
  | gz (inner : FileData)
  | fitData (activity : FitActivity)
  | textFile (lines : List String)
  | xmlFile (doc : XmlNode)
  | gpxFile (src : FileData)
  | emptyFile

/-- A file system: path to content. -/
def FS : Type :=
  String → Option FileData

/-- Write (create or overwrite) a file. -/
def fsWrite (fs : FS) (name : String) (d : FileData) : FS :=
  fun m => if m = name then some d else fs m

/-- `os.unlink`. -/
def fsDelete (fs : FS) (name : String) : FS :=
  fun m => if m = name then none else fs m

/-- The mutable state threaded through the run: the file system, a counter
generating fresh `tempfile.NamedTemporaryFile` names, everything printed via
`print`, the progress line writes, and the two loop counters of `main`. -/
structure St where
  fs : FS
  tempCounter : Nat
  printed : List String
  progress : List String
  activity_control_var : Nat
  filter_control_var : Nat

/-- Fresh temporary-file names: `NamedTemporaryFile(suffix=...)` names are
modelled as `/tmp/tmpN` plus the requested suffix. -/
def freshTempName (n : Nat) (suffix : String) : String :=
  "/tmp/tmp" ++ toString n ++ suffix

/-- `convert_tcx_gpx` wraps the external TCXParser/gpxpy collaborator (out of
the verified core per the specification): reading the source file and
producing the GPX document determined by its content. -/
def convert_tcx_gpx (st : St) (tcx_path : String) : Except PyError FileData :=
  match st.fs tcx_path with
  | none => .error .fileNotFound
  | some content => .ok (FileData.gpxFile content)

/-- `write_gpx_file` from src/strava2gpx.py: convert the source file, then
write the result to `dest.replace(".tcx", ".gpx")`. -/
def write_gpx_file (st : St) (source dest : String) : St × Except PyError Unit :=
  match convert_tcx_gpx st source with
  | .error e => (st, .error e)
  | .ok gpx_document =>
    let dest2 := pyReplace dest ".tcx" ".gpx"
    ({ st with fs := fsWrite st.fs dest2 gpx_document }, .ok ())

/-- `convert_fit_tcx` from src/strava2gpx.py: parse the FIT file at the path
and build the TCX document (`FitFile` fails on non-FIT content;
`add_tcx_activity` raises `StopIteration` on zero sessions). -/
def convert_fit_tcx (st : St) (filename : String) : Except PyError XmlNode :=
  match st.fs filename with
  | some (.fitData activity) => convert_fit_tcx_doc activity
  | some _ => .error .fitParseError
  | none => .error .fileNotFound

/-- `gps_track_convert` from src/strava2gpx.py.  For `"fit"`: build the TCX
document, write it next to the target (`output.replace(".gpx", ".tcx")`),
convert that file to GPX, then unlink the intermediate TCX.  For `"tcx"`:
convert the input file directly.  The two `if` statements are sequential in
the source, but `file_type` is a single tag so they are exclusive. -/
def gps_track_convert (st : St) (input_file_path output_file_path : String)
    (file_type : String) : St × Except PyError Unit :=
  if file_type = "fit" then
    match convert_fit_tcx st input_file_path with
    | .error e => (st, .error e)
    | .ok tcx_document =>
      let out2 := pyReplace output_file_path ".gpx" ".tcx"
      let st1 := { st with fs := fsWrite st.fs out2 (.xmlFile tcx_document) }
      match write_gpx_file st1 out2 out2 with
      | (st2, .error e) => (st2, .error e)
      | (st2, .ok _) => ({ st2 with fs := fsDelete st2.fs out2 }, .ok ())
  else if file_type = "tcx" then
    write_gpx_file st input_file_path output_file_path
  else (st, .ok ())

/-- `convert_activity` from src/strava2gpx.py — the recursive format
dispatcher.  The argument `fuel` bounds the recursion depth (Python's call
stack); every theorem supplies enough fuel for the paths it takes.

Faithfulness notes: the gzip branch creates the temporary file first
(`NamedTemporaryFile(..., delete=False)`), decompresses one layer into it,
recurses, and only unlinks the temporary file after the recursive call
returns normally — an exception skips the `os.unlink`.  The `.tcx` branch
rewrites the file with every line stripped (the per-line trailing newline is
implicit in the line-list representation) and likewise unlinks its temporary
file only on the normal path.  The `.gpx` branch is a byte-for-byte copy.
Anything else prints a diagnostic and returns normally. -/
def convert_activity : Nat → St → String → String → St × Except PyError Unit
  | 0, st, _, _ => (st, .error .recursionLimit)
  | fuel + 1, st, activity_file_name, target_gpx_file_name =>
    if pyEndsWith activity_file_name ".fit.gz" || pyEndsWith activity_file_name ".tcx.gz"
        || pyEndsWith activity_file_name ".gpx.gz" then
      let suffix := pySliceM7M3 activity_file_name
      let gunzipped_file := freshTempName st.tempCounter suffix
      let st1 := { st with tempCounter := st.tempCounter + 1 }
      match st1.fs activity_file_name with
      | none => ({ st1 with fs := fsWrite st1.fs gunzipped_file .emptyFile }, .error .fileNotFound)
      | some (.gz inner) =>
        let st2 := { st1 with fs := fsWrite st1.fs gunzipped_file inner }
        match convert_activity fuel st2 gunzipped_file target_gpx_file_name with
        | (st3, .ok _) => ({ st3 with fs := fsDelete st3.fs gunzipped_file }, .ok ())
        | (st3, .error e) => (st3, .error e)
      | some _ => ({ st1 with fs := fsWrite st1.fs gunzipped_file .emptyFile }, .error .badGzipFile)
    else if pyEndsWith activity_file_name ".fit" then
      gps_track_convert st activity_file_name target_gpx_file_name "fit"
    else if pyEndsWith activity_file_name ".tcx" then
      let temp := freshTempName st.tempCounter ""
      let st1 := { st with tempCounter := st.tempCounter + 1 }
      match st1.fs activity_file_name with
      | some (.textFile lines) =>
        let st2 := { st1 with fs := fsWrite st1.fs temp (.textFile (lines.map String.trim)) }
        match gps_track_convert st2 temp target_gpx_file_name "tcx" with
        | (st3, .ok _) => ({ st3 with fs := fsDelete st3.fs temp }, .ok ())
        | (st3, .error e) => (st3, .error e)
      | none => ({ st1 with fs := fsWrite st1.fs temp .emptyFile }, .error .fileNotFound)
      | some _ => ({ st1 with fs := fsWrite st1.fs temp .emptyFile }, .error .ioError)
    else if pyEndsWith activity_file_name ".gpx" then
      match st.fs activity_file_name with
      | some d => ({ st with fs := fsWrite st.fs target_gpx_file_name d }, .ok ())
      | none => (st, .error .fileNotFound)
    else
      ({ st with printed := st.printed
          ++ ["Unrecognized/unsupported file format: " ++ activity_file_name ++ "\n"] }, .ok ())

/-- An open export archive: entry name to content. -/
def Zip : Type :=
  String → Option FileData

/-- `check_zip` from src/strava2gpx.py: in archive mode the activity file is
extracted to a temporary file named after its basename and converted from
there, with the `os.unlink` skipped when the conversion raises; in directory
mode the file is converted in place. -/
def check_zip (fuel : Nat) (st : St) (zip_file : Option Zip)
    (gpx_file_path activity_file_name : String) : St × Except PyError Unit :=
  match zip_file with
  | some z =>
    let unzipped_file := freshTempName st.tempCounter (pyBasename activity_file_name)
    let st1 := { st with tempCounter := st.tempCounter + 1 }
    match z activity_file_name with
    | none => ({ st1 with fs := fsWrite st1.fs unzipped_file .emptyFile },
        .error (.keyError activity_file_name))
    | some d =>
      let st2 := { st1 with fs := fsWrite st1.fs unzipped_file d }
      match convert_activity fuel st2 unzipped_file gpx_file_path with
      | (st3, .ok _) => ({ st3 with fs := fsDelete st3.fs unzipped_file }, .ok ())
      | (st3, .error e) => (st3, .error e)
  | none => convert_activity fuel st activity_file_name gpx_file_path

/-- `clear_temp` from src/strava2gpx.py: if the stray file exists, optionally
announce it, then try to unlink it; a deletion failure (modelled by the
`unlink_fails` flag) is caught and printed, never raised — the function is
total and returns a state, not an exception. -/
def clear_temp (args : Bool) (st : St) (stray_file : String) (unlink_fails : Bool) : St :=
  match st.fs stray_file with
  | none => st
  | some _ =>
    let st1 := if args then { st with printed := st.printed ++ ["Removing tempfile: " ++ stray_file] }
      else st
    if unlink_fails then
      { st1 with printed := st1.printed ++ ["Error while deleting file"] }
    else
      { st1 with fs := fsDelete st1.fs stray_file }

/-! ## The main conversion loop -/

/-- The parsed command-line arguments relevant to the conversion branch of
`main`. -/
structure Args where
  strava_export : String
  output_dir : String
  filter_types : Option (List String)
  filter_years : Option (List String)
  filter_gear : Option (List String)
  verbose : Bool

/-- The progress line `main` writes to stdout for every manifest row. -/
def progressMsg (n total : Nat) : String :=
  " Converting activities: " ++ toString n ++ " / " ++ toString total ++ "\r"

/-- One iteration of the conversion loop in `main` (src/strava2gpx.py lines
497-536): bump the progress counter and write the progress line, parse the
date (an unparseable date raises `ValueError` out of the loop), silently
`continue` on an empty source filename, resolve the path in directory mode,
apply the year, type and gear filters (each miss bumps the filtered counter,
optionally logs, and continues), then derive the output name and convert via
`check_zip`.  Nothing catches conversion errors. -/
def main_step (fuel : Nat) (args : Args) (zip_file : Option Zip) (st : St)
    (activity : ActivityRec) : St × Except PyError Unit :=
  let st := { st with activity_control_var := st.activity_control_var + 1 }
  let st := { st with progress := st.progress
      ++ [progressMsg st.activity_control_var activity.activity_count] }
  let activity_file_name := activity.filename
  match date_format activity.date with
  | .error e => (st, .error e)
  | .ok d =>
    let activity_date := strftimeCompact d
    if activity_file_name = "" then (st, .ok ())
    else
      let activity_file_name :=
        if zip_file.isNone then args.strava_export ++ "/" ++ activity_file_name
        else activity_file_name
      if matches_filter_years activity_date args.filter_years = false then
        let st := { st with filter_control_var := st.filter_control_var + 1 }
        let st := if args.verbose then { st with printed := st.printed
            ++ ["Skipping " ++ activity_file_name ++ ", year=" ++ pyTake activity_date 4] }
          else st
        (st, .ok ())
      else if matches_filter_types activity args.filter_types = false then
        let st := { st with filter_control_var := st.filter_control_var + 1 }
        let st := if args.verbose then { st with printed := st.printed
            ++ ["Skipping " ++ activity_file_name ++ ", type=" ++ activity.type] }
          else st
        (st, .ok ())
      else if matches_filter_gear activity args.filter_gear = false then
        let st := { st with filter_control_var := st.filter_control_var + 1 }
        let st := if args.verbose then { st with printed := st.printed
            ++ ["Skipping " ++ activity_file_name ++ ", gear=" ++ activity.gear] }
          else st
        (st, .ok ())
      else
        let gpx_file_name := activity_date ++ "_" ++ activity.type ++ "_" ++ activity.id ++ ".gpx"
        let gpx_file_path := args.output_dir ++ "/" ++ gpx_file_name
        let st := if args.verbose then { st with printed := st.printed
            ++ ["Converting " ++ activity_file_name ++ " to " ++ gpx_file_path] }
          else st
        check_zip fuel st zip_file gpx_file_path activity_file_name

/-- The `for activity in get_activities_csv(...)` loop: iterations run in
order and the first uncaught exception aborts the remainder of the loop. -/
def main_loop (fuel : Nat) (args : Args) (zip_file : Option Zip) :
    St → List ActivityRec → St × Except PyError Unit
  | st, [] => (st, .ok ())
  | st, a :: rest =>
    match main_step fuel args zip_file st a with
    | (st1, .ok _) => main_loop fuel args zip_file st1 rest
    | (st1, .error e) => (st1, .error e)

/-- The conversion branch of `main` after the loop: `activity` still holds
the final row (so an empty manifest raises `TypeError` on
`activity["csv_temp_file"]`), and `clear_temp` releases the manifest's
temporary file. -/
def main_convert (fuel : Nat) (args : Args) (zip_file : Option Zip) (unlink_fails : Bool)
    (st : St) (activities : List ActivityRec) : St × Except PyError Unit :=
  match main_loop fuel args zip_file st activities with
  | (st1, .error e) => (st1, .error e)
  | (st1, .ok _) =>
    match activities.getLast? with
    | none => (st1, .error .typeError)
    | some last => (clear_temp args.verbose st1 last.csv_temp_file unlink_fails, .ok ())

/-- The string stored in a descriptor field, when it is a plain string. -/
def PyVal.asString? : PyVal → Option String
  | .str s => some s
  | _ => none

/-- A loader descriptor whose five fields are all plain strings, reshaped
for the conversion-loop model (`ActivityRec`).  Every rectangular manifest
row (row exactly as long as the header) produces exactly this shape. -/
def ActivityDict.toRec? (a : ActivityDict) : Option ActivityRec := do
  let i ← a.id.asString?
  let t ← a.type.asString?
  let dt ← a.date.asString?
  let g ← a.gear.asString?
  let f ← a.filename.asString?
  some ⟨i, t, dt, g, f, a.activity_count, a.csv_temp_file⟩

/-- The conversion branch of `main` from the manifest onward: parse the
manifest, then run the loop.  A manifest-loading exception propagates —
nothing in `main` catches it.  The loop itself is modelled over
string-valued descriptors (`ActivityRec`); a run whose loader output leaves
that fragment (a `restval` `None` or a `restkey` overflow list in one of
the five fields) is outside the modelled fragment, marked `none` rather
than given an invented behaviour. -/
def main_run (fuel : Nat) (args : Args) (zip_file : Option Zip) (unlink_fails : Bool)
    (st : St) (csv_file : Csv) (csv_file_name : String) :
    Option (St × Except PyError Unit) :=
  match get_activities_csv csv_file csv_file_name with
  | .error e => some (st, .error e)
  | .ok ds =>
    (ds.mapM ActivityDict.toRec?).map
      (fun activities => main_convert fuel args zip_file unlink_fails st activities)

/-! ## Helper lemmas: strings, suffixes and the file-system map -/

theorem strMk_data (s : String) : String.mk s.data = s := by
  cases s
  rfl

theorem strMk_append (a b : List Char) : String.mk a ++ String.mk b = String.mk (a ++ b) := by
  rfl

theorem pyEndsWith_append_big (x s t : String) (h : t.data.length ≤ s.data.length) :
    pyEndsWith (x ++ s) t = pyEndsWith s t := by
  simp only [pyEndsWith, String.data_append]
  by_cases hs : t.data <:+ s.data
  · have h1 : t.data.isSuffixOf s.data = true := List.isSuffixOf_iff_suffix.mpr hs
    have h2 : t.data.isSuffixOf (x.data ++ s.data) = true :=
      List.isSuffixOf_iff_suffix.mpr (hs.trans (List.suffix_append _ _))
    rw [h1, h2]
  · have h1 : t.data.isSuffixOf s.data = false :=
      Bool.eq_false_iff.mpr (fun hc => hs (List.isSuffixOf_iff_suffix.mp hc))
    have h2 : t.data.isSuffixOf (x.data ++ s.data) = false := by
      refine Bool.eq_false_iff.mpr (fun hc => hs ?_)
      have ht : t.data <:+ x.data ++ s.data := List.isSuffixOf_iff_suffix.mp hc
      rcases List.suffix_or_suffix_of_suffix ht (List.suffix_append x.data s.data) with h3 | h3
      · exact h3
      · have hlen : s.data.length = t.data.length :=
          Nat.le_antisymm h3.length_le h
        have : s.data = t.data := h3.eq_of_length hlen
        rw [← this]
    rw [h1, h2]

theorem pyEndsWith_append_of_not (x s t : String) (hle : s.data.length ≤ t.data.length)
    (h : s.data.isSuffixOf t.data = false) : pyEndsWith (x ++ s) t = false := by
  simp only [pyEndsWith, String.data_append]
  refine Bool.eq_false_iff.mpr (fun hc => ?_)
  have ht : t.data <:+ x.data ++ s.data := List.isSuffixOf_iff_suffix.mp hc
  rcases List.suffix_or_suffix_of_suffix ht (List.suffix_append x.data s.data) with h3 | h3
  · have : t.data.length ≤ s.data.length := h3.length_le
    have hlen : t.data.length = s.data.length := Nat.le_antisymm this hle
    have heq : t.data = s.data := h3.eq_of_length hlen
    rw [Bool.eq_false_iff] at h
    exact h (List.isSuffixOf_iff_suffix.mpr (heq ▸ List.suffix_rfl))
  · rw [Bool.eq_false_iff] at h
    exact h (List.isSuffixOf_iff_suffix.mpr h3)

theorem pySliceM7M3_append (x s : String) (h : s.data.length = 7) :
    pySliceM7M3 (x ++ s) = String.mk (s.data.take 4) := by
  simp only [pySliceM7M3, String.data_append, List.length_append, h]
  have : x.data.length + 7 - 7 = x.data.length := by omega
  rw [this, List.drop_left]

theorem freshTempName_startsWith (n : Nat) (s : String) :
    pyStartsWith (freshTempName n s) "/tmp/tmp" = true := by
  simp only [freshTempName, pyStartsWith, String.data_append]
  exact List.isPrefixOf_iff_prefix.mpr
    ((List.prefix_append _ _).trans (List.prefix_append _ _))

theorem ne_freshTempName_of_not_startsWith (t : String) (n : Nat) (s : String)
    (h : pyStartsWith t "/tmp/tmp" = false) : t ≠ freshTempName n s := by
  intro hc
  rw [hc, freshTempName_startsWith] at h
  exact Bool.true_eq_false.mp h

theorem fsWrite_self (fs : FS) (n : String) (d : FileData) : fsWrite fs n d n = some d := by
  simp [fsWrite]

theorem fsWrite_ne (fs : FS) (n m : String) (d : FileData) (h : m ≠ n) :
    fsWrite fs n d m = fs m := by
  simp [fsWrite, h]

theorem fsDelete_self (fs : FS) (n : String) : fsDelete fs n n = none := by
  simp [fsDelete]

theorem fsDelete_ne (fs : FS) (n m : String) (h : m ≠ n) : fsDelete fs n m = fs m := by
  simp [fsDelete, h]

/-! ## Evaluation lemmas for the format dispatcher -/

theorem convert_gpx_eval (fuel : Nat) (st : St) (x target : String) (d : FileData)
    (h : st.fs (x ++ ".gpx") = some d) :
    convert_activity (fuel + 1) st (x ++ ".gpx") target
      = ({ st with fs := fsWrite st.fs target d }, .ok ()) := by
  have h1 : pyEndsWith (x ++ ".gpx") ".fit.gz" = false :=
    pyEndsWith_append_of_not x ".gpx" ".fit.gz" (by decide) (by decide)
  have h2 : pyEndsWith (x ++ ".gpx") ".tcx.gz" = false :=
    pyEndsWith_append_of_not x ".gpx" ".tcx.gz" (by decide) (by decide)
  have h3 : pyEndsWith (x ++ ".gpx") ".gpx.gz" = false :=
    pyEndsWith_append_of_not x ".gpx" ".gpx.gz" (by decide) (by decide)
  have h4 : pyEndsWith (x ++ ".gpx") ".fit" = false := by
    rw [pyEndsWith_append_big x ".gpx" ".fit" (by decide)]
    decide
  have h5 : pyEndsWith (x ++ ".gpx") ".tcx" = false := by
    rw [pyEndsWith_append_big x ".gpx" ".tcx" (by decide)]
    decide
  have h6 : pyEndsWith (x ++ ".gpx") ".gpx" = true := by
    rw [pyEndsWith_append_big x ".gpx" ".gpx" (by decide)]
    decide
  simp [convert_activity, h1, h2, h3, h4, h5, h6, h]

theorem convert_gpxgz_eval (fuel : Nat) (st : St) (x target : String) (d : FileData)
    (h : st.fs (x ++ ".gpx.gz") = some (.gz d)) :
    convert_activity (fuel + 2) st (x ++ ".gpx.gz") target
      = ({ st with
            tempCounter := st.tempCounter + 1
            fs := fsDelete
              (fsWrite (fsWrite st.fs (freshTempName st.tempCounter ".gpx") d) target d)
              (freshTempName st.tempCounter ".gpx") }, .ok ()) := by
  have h1 : pyEndsWith (x ++ ".gpx.gz") ".fit.gz" = false := by
    rw [pyEndsWith_append_big x ".gpx.gz" ".fit.gz" (by decide)]
    decide
  have h2 : pyEndsWith (x ++ ".gpx.gz") ".tcx.gz" = false := by
    rw [pyEndsWith_append_big x ".gpx.gz" ".tcx.gz" (by decide)]
    decide
  have h3 : pyEndsWith (x ++ ".gpx.gz") ".gpx.gz" = true := by
    rw [pyEndsWith_append_big x ".gpx.gz" ".gpx.gz" (by decide)]
    decide
  have hslice : pySliceM7M3 (x ++ ".gpx.gz") = ".gpx" := by
    rw [pySliceM7M3_append x ".gpx.gz" (by decide)]
    decide
  have hfresh : freshTempName st.tempCounter ".gpx"
      = ("/tmp/tmp" ++ toString st.tempCounter) ++ ".gpx" := by
    simp [freshTempName, String.append_assoc]
  have hinner :
      convert_activity (fuel + 1)
        { st with
            tempCounter := st.tempCounter + 1
            fs := fsWrite st.fs (freshTempName st.tempCounter ".gpx") d }
        (("/tmp/tmp" ++ toString st.tempCounter) ++ ".gpx") target
      = ({ st with
            tempCounter := st.tempCounter + 1
            fs := fsWrite (fsWrite st.fs (freshTempName st.tempCounter ".gpx") d) target d },
          .ok ()) := by
    refine convert_gpx_eval fuel _ _ target d ?_
    rw [← hfresh]
    exact fsWrite_self st.fs _ d
  show (if pyEndsWith (x ++ ".gpx.gz") ".fit.gz" || pyEndsWith (x ++ ".gpx.gz") ".tcx.gz"
      || pyEndsWith (x ++ ".gpx.gz") ".gpx.gz" then _ else _) = _
  rw [h1, h2, h3]
  simp only [Bool.false_or, Bool.or_false, if_pos rfl]
  simp only [hslice, h]
  rw [← hfresh] at hinner
  simp [hinner]

theorem convert_unrecognized_eval (fuel : Nat) (st : St) (name target : String)
    (h1 : pyEndsWith name ".fit.gz" = false) (h2 : pyEndsWith name ".tcx.gz" = false)
    (h3 : pyEndsWith name ".gpx.gz" = false) (h4 : pyEndsWith name ".fit" = false)
    (h5 : pyEndsWith name ".tcx" = false) (h6 : pyEndsWith name ".gpx" = false) :
    convert_activity (fuel + 1) st name target
      = ({ st with printed := st.printed
            ++ ["Unrecognized/unsupported file format: " ++ name ++ "\n"] }, .ok ()) := by
  simp [convert_activity, h1, h2, h3, h4, h5, h6]

theorem convert_gzgz_eval (fuel : Nat) (st : St) (x target : String) :
    convert_activity (fuel + 1) st (x ++ ".gz.gz") target
      = ({ st with printed := st.printed
            ++ ["Unrecognized/unsupported file format: " ++ (x ++ ".gz.gz") ++ "\n"] }, .ok ()) := by
  refine convert_unrecognized_eval fuel st _ target ?_ ?_ ?_ ?_ ?_ ?_
  · exact pyEndsWith_append_of_not x ".gz.gz" ".fit.gz" (by decide) (by decide)
  · exact pyEndsWith_append_of_not x ".gz.gz" ".tcx.gz" (by decide) (by decide)
  · exact pyEndsWith_append_of_not x ".gz.gz" ".gpx.gz" (by decide) (by decide)
  · rw [pyEndsWith_append_big x ".gz.gz" ".fit" (by decide)]
    decide
  · rw [pyEndsWith_append_big x ".gz.gz" ".tcx" (by decide)]
    decide
  · rw [pyEndsWith_append_big x ".gz.gz" ".gpx" (by decide)]
    decide

theorem convert_fit_nosession_eval (fuel : Nat) (st : St) (x target : String)
    (laps : List LapMsg) (records : List RecordMsg)
    (h : st.fs (x ++ ".fit") = some (.fitData ⟨[], laps, records⟩)) :
    convert_activity (fuel + 1) st (x ++ ".fit") target = (st, .error .stopIteration) := by
  have h1 : pyEndsWith (x ++ ".fit") ".fit.gz" = false :=
    pyEndsWith_append_of_not x ".fit" ".fit.gz" (by decide) (by decide)
  have h2 : pyEndsWith (x ++ ".fit") ".tcx.gz" = false :=
    pyEndsWith_append_of_not x ".fit" ".tcx.gz" (by decide) (by decide)
  have h3 : pyEndsWith (x ++ ".fit") ".gpx.gz" = false :=
    pyEndsWith_append_of_not x ".fit" ".gpx.gz" (by decide) (by decide)
  have h4 : pyEndsWith (x ++ ".fit") ".fit" = true := by
    rw [pyEndsWith_append_big x ".fit" ".fit" (by decide)]
    decide
  simp [convert_activity, h1, h2, h3, h4, gps_track_convert, convert_fit_tcx, h,
    convert_fit_tcx_doc, add_tcx_activity, bind, Except.bind]

theorem convert_fitgz_nosession_eval (fuel : Nat) (st : St) (x target : String)
    (laps : List LapMsg) (records : List RecordMsg)
    (h : st.fs (x ++ ".fit.gz") = some (.gz (.fitData ⟨[], laps, records⟩))) :
    convert_activity (fuel + 2) st (x ++ ".fit.gz") target
      = ({ st with
            tempCounter := st.tempCounter + 1
            fs := fsWrite st.fs (freshTempName st.tempCounter ".fit")
              (.fitData ⟨[], laps, records⟩) }, .error .stopIteration) := by
  have h1 : pyEndsWith (x ++ ".fit.gz") ".fit.gz" = true := by
    rw [pyEndsWith_append_big x ".fit.gz" ".fit.gz" (by decide)]
    decide
  have hslice : pySliceM7M3 (x ++ ".fit.gz") = ".fit" := by
    rw [pySliceM7M3_append x ".fit.gz" (by decide)]
    decide
  have hfresh : freshTempName st.tempCounter ".fit"
      = ("/tmp/tmp" ++ toString st.tempCounter) ++ ".fit" := by
    simp [freshTempName, String.append_assoc]
  have hinner :
      convert_activity (fuel + 1)
        { st with
            tempCounter := st.tempCounter + 1
            fs := fsWrite st.fs (freshTempName st.tempCounter ".fit")
              (.fitData ⟨[], laps, records⟩) }
        (("/tmp/tmp" ++ toString st.tempCounter) ++ ".fit") target
      = ({ st with
            tempCounter := st.tempCounter + 1
            fs := fsWrite st.fs (freshTempName st.tempCounter ".fit")
              (.fitData ⟨[], laps, records⟩) }, .error .stopIteration) := by
    refine convert_fit_nosession_eval fuel _ _ target laps records ?_
    rw [← hfresh]
    exact fsWrite_self st.fs _ _
  show (if pyEndsWith (x ++ ".fit.gz") ".fit.gz" || pyEndsWith (x ++ ".fit.gz") ".tcx.gz"
      || pyEndsWith (x ++ ".fit.gz") ".gpx.gz" then _ else _) = _
  rw [h1]
  simp only [Bool.true_or, if_pos rfl]
  simp only [hslice, h]
  rw [← hfresh] at hinner
  simp [hinner]

/-! ## Helper lemmas: rstrip and the record-scan fold -/

theorem rstrip_spec (s : String) (c : Char) :
    ∃ k, s = rstrip s c ++ String.mk (List.replicate k c) := by
  refine ⟨(s.data.reverse.takeWhile (fun x => x == c)).length, ?_⟩
  have htake : List.replicate (s.data.reverse.takeWhile (fun x => x == c)).length c
      = s.data.reverse.takeWhile (fun x => x == c) := by
    symm
    refine List.eq_replicate_of_mem (fun b hb => ?_)
    have hbc := List.mem_takeWhile_imp hb
    exact eq_of_beq hbc
  rw [rstrip, strMk_append, htake]
  conv_lhs => rw [← strMk_data s, ← List.reverse_reverse s.data,
    ← List.takeWhile_append_dropWhile (fun x => x == c) s.data.reverse, List.reverse_append]
  rw [← htake, List.reverse_replicate]

theorem foldl_append_filter {α β : Type} (p : α → Prop) [DecidablePred p] (f : α → β) :
    ∀ (l : List α) (acc : List β),
      l.foldl (fun acc x => if p x then acc ++ [f x] else acc) acc
        = acc ++ (l.filter (fun x => decide (p x))).map f
  | [], acc => by simp
  | x :: xs, acc => by
    by_cases hx : p x
    · simp only [List.foldl_cons, if_pos hx, List.filter_cons, decide_eq_true hx,
        List.map_cons, foldl_append_filter p f xs (acc ++ [f x])]
      simp
    · simp only [List.foldl_cons, if_neg hx, List.filter_cons,
        decide_eq_false hx, foldl_append_filter p f xs acc]
      simp

/-! ## Helper lemmas: manifest parsing -/

theorem pyDedupAux_subset {α : Type} [DecidableEq α] :
    ∀ (l seen : List α), ∀ a ∈ pyDedupAux l seen, a ∈ l
  | [], _, a, ha => by simp [pyDedupAux] at ha
  | x :: xs, seen, a, ha => by
    by_cases hx : x ∈ seen
    · simp only [pyDedupAux, if_pos hx] at ha
      exact List.mem_cons_of_mem x (pyDedupAux_subset xs seen a ha)
    · simp only [pyDedupAux, if_neg hx, List.mem_cons] at ha
      rcases ha with ha | ha
      · exact ha ▸ List.mem_cons_self x xs
      · exact List.mem_cons_of_mem x (pyDedupAux_subset xs (x :: seen) a ha)

theorem pyDedup_subset {α : Type} [DecidableEq α] (l : List α) : ∀ a ∈ pyDedup l, a ∈ l :=
  pyDedupAux_subset l []

theorem pyDedupAux_map {α β : Type} [DecidableEq α] [DecidableEq β] (f : α → β)
    (hf : Function.Injective f) :
    ∀ (l seen : List α), pyDedupAux (l.map f) (seen.map f) = (pyDedupAux l seen).map f
  | [], _ => rfl
  | x :: xs, seen => by
    have hmem : f x ∈ seen.map f ↔ x ∈ seen := List.mem_map_of_injective hf
    by_cases hx : x ∈ seen
    · simp only [List.map_cons, pyDedupAux, if_pos hx, if_pos (hmem.mpr hx)]
      exact pyDedupAux_map f hf xs seen
    · simp only [List.map_cons, pyDedupAux, if_neg hx, if_neg (fun hc => hx (hmem.mp hc))]
      rw [show (f x :: seen.map f) = (x :: seen).map f from rfl,
        pyDedupAux_map f hf xs (x :: seen)]

theorem pyDedup_map {α β : Type} [DecidableEq α] [DecidableEq β] (f : α → β)
    (hf : Function.Injective f) (l : List α) : pyDedup (l.map f) = (pyDedup l).map f :=
  pyDedupAux_map f hf l []

theorem pyDedupAux_append_prefix {α : Type} [DecidableEq α] :
    ∀ (xs ys seen : List α), ∃ zs, pyDedupAux (xs ++ ys) seen = pyDedupAux xs seen ++ zs
  | [], ys, seen => ⟨pyDedupAux ys seen, rfl⟩
  | x :: xs, ys, seen => by
    by_cases hx : x ∈ seen
    · obtain ⟨zs, hzs⟩ := pyDedupAux_append_prefix xs ys seen
      refine ⟨zs, ?_⟩
      simp only [List.cons_append, pyDedupAux, if_pos hx]
      exact hzs
    · obtain ⟨zs, hzs⟩ := pyDedupAux_append_prefix xs ys (x :: seen)
      refine ⟨zs, ?_⟩
      simp only [List.cons_append, pyDedupAux, if_neg hx]
      exact congrArg (List.cons x) hzs

theorem lookupLast_isSome_of_mem_keys {κ ν : Type} [DecidableEq κ] :
    ∀ (l : List (κ × ν)) (k : κ), k ∈ l.map Prod.fst → ∃ v, lookupLast l k = some v
  | [], k, hk => by simp at hk
  | (k1, v1) :: rest, k, hk => by
    have hgoal : lookupLast ((k1, v1) :: rest) k
        = match lookupLast rest k with
          | some w => some w
          | none => if k1 = k then some v1 else none := rfl
    by_cases hmem : k ∈ rest.map Prod.fst
    · obtain ⟨w, hw⟩ := lookupLast_isSome_of_mem_keys rest k hmem
      exact ⟨w, by rw [hgoal, hw]⟩
    · have hk2 : k = k1 ∨ k ∈ rest.map Prod.fst := by simpa using hk
      have hk1 : k1 = k := by
        rcases hk2 with h | h
        · exact h.symm
        · exact absurd h hmem
      cases hrec : lookupLast rest k with
      | some w => exact ⟨w, by rw [hgoal, hrec]⟩
      | none => exact ⟨v1, by rw [hgoal, hrec, if_pos hk1]⟩

theorem lookupLast_eq_none {κ ν : Type} [DecidableEq κ] :
    ∀ (l : List (κ × ν)) (k : κ), (∀ p ∈ l, p.1 ≠ k) → lookupLast l k = none
  | [], _, _ => rfl
  | (k1, v1) :: rest, k, hne => by
    have hrest : lookupLast rest k = none :=
      lookupLast_eq_none rest k (fun p hp => hne p (List.mem_cons_of_mem _ hp))
    have hk1 : k1 ≠ k := hne (k1, v1) (List.mem_cons_self _ _)
    simp [lookupLast, hrest, hk1]

theorem map_fst_zipStr :
    ∀ (h r : List String),
      ((h.zip r).map (fun p => (PyKey.str p.1, PyVal.str p.2))).map Prod.fst
        = (h.take r.length).map PyKey.str
  | [], r => by simp
  | a :: h, [] => by simp
  | a :: h, b :: r => by
    simp [map_fst_zipStr h r]

theorem rowAssignments_keys (fieldnames row : List String) :
    (rowAssignments fieldnames row).map Prod.fst
      = fieldnames.map PyKey.str
        ++ (if fieldnames.length < row.length then [PyKey.noneKey] else []) := by
  rcases Nat.lt_trichotomy row.length fieldnames.length with h | h | h
  · have hnl : ¬ fieldnames.length < row.length := by omega
    have hcomp : (Prod.fst ∘ fun k : String => (PyKey.str k, PyVal.noneVal)) = PyKey.str := rfl
    simp only [rowAssignments, if_pos h, if_neg hnl, List.append_nil, List.map_append]
    rw [map_fst_zipStr, List.map_map, hcomp, ← List.map_append, List.take_append_drop]
  · have hnl : ¬ fieldnames.length < row.length := by omega
    have hnl2 : ¬ row.length < fieldnames.length := by omega
    simp only [rowAssignments, if_neg hnl, if_neg hnl2, List.append_nil, List.map_append,
      map_fst_zipStr]
    rw [h, List.take_length]
  · have hnl2 : ¬ row.length < fieldnames.length := by omega
    simp only [rowAssignments, if_pos h, if_neg hnl2, List.map_append, map_fst_zipStr,
      List.map_cons, List.map_nil]
    rw [List.take_of_length_le (by omega)]
    simp

theorem str_key_mem (fieldnames row : List String) (f : String) (hf : f ∈ fieldnames) :
    PyKey.str f ∈ (rowAssignments fieldnames row).map Prod.fst := by
  rw [rowAssignments_keys]
  exact List.mem_append_left _ (List.mem_map_of_mem _ hf)

theorem pyDictGet_ok_of_mem (fieldnames row : List String) (f : String)
    (hf : f ∈ fieldnames) : ∃ v, pyDictGet fieldnames row (.str f) = .ok v := by
  obtain ⟨v, hv⟩ := lookupLast_isSome_of_mem_keys (rowAssignments fieldnames row) (.str f)
    (str_key_mem fieldnames row f hf)
  exact ⟨v, by simp [pyDictGet, hv]⟩

theorem pyDictGet_keyError_of_not_mem (fieldnames row : List String) (g : String)
    (hg : g ∉ fieldnames) : pyDictGet fieldnames row (.str g) = .error (.keyError g) := by
  have hnone : lookupLast (rowAssignments fieldnames row) (.str g) = none := by
    refine lookupLast_eq_none _ _ (fun p hp hc => ?_)
    have hkey : p.1 ∈ (rowAssignments fieldnames row).map Prod.fst :=
      List.mem_map_of_mem _ hp
    rw [rowAssignments_keys] at hkey
    rcases List.mem_append.mp hkey with hkey | hkey
    · obtain ⟨x, hx, hxe⟩ := List.mem_map.mp hkey
      have hxg : x = g := by
        have hsg : PyKey.str x = PyKey.str g := hxe.trans hc
        injection hsg
      exact hg (hxg ▸ hx)
    · by_cases hlen : fieldnames.length < row.length
      · rw [if_pos hlen] at hkey
        have hpn : p.1 = PyKey.noneKey := by simpa using hkey
        rw [hc] at hpn
        exact PyKey.noConfusion hpn
      · rw [if_neg hlen] at hkey
        simp at hkey
  simp [pyDictGet, hnone, PyKey.render]

theorem csvRow_ok (fieldnames : List String) (n : Nat) (cn : String)
    (f0 f1 f3 f9 f10 : String) (a : List String)
    (h0 : f0 ∈ fieldnames) (h1 : f1 ∈ fieldnames) (h3 : f3 ∈ fieldnames)
    (h9 : f9 ∈ fieldnames) (h10 : f10 ∈ fieldnames) :
    ∃ b, csvRow fieldnames n cn (.str f0) (.str f1) (.str f3) (.str f9) (.str f10) a
      = .ok b := by
  obtain ⟨v0, hv0⟩ := pyDictGet_ok_of_mem fieldnames a f0 h0
  obtain ⟨v1, hv1⟩ := pyDictGet_ok_of_mem fieldnames a f1 h1
  obtain ⟨v3, hv3⟩ := pyDictGet_ok_of_mem fieldnames a f3 h3
  obtain ⟨v9, hv9⟩ := pyDictGet_ok_of_mem fieldnames a f9 h9
  obtain ⟨v10, hv10⟩ := pyDictGet_ok_of_mem fieldnames a f10 h10
  refine ⟨⟨v0, v3, v1, v9, v10, n, cn⟩, ?_⟩
  simp [csvRow, hv0, hv1, hv3, hv9, hv10, bind, Except.bind]

theorem csvRows_ok (fieldnames : List String) (n : Nat) (cn : String)
    (k0 k1 k3 k9 k10 : PyKey) :
    ∀ rows : List (List String),
      (∀ a ∈ rows, ∃ b, csvRow fieldnames n cn k0 k1 k3 k9 k10 a = .ok b) →
      ∃ l, csvRows fieldnames n cn k0 k1 k3 k9 k10 rows = .ok l ∧ l.length = rows.length
  | [], _ => ⟨[], rfl, rfl⟩
  | a :: rest, hall => by
    obtain ⟨b, hb⟩ := hall a (List.mem_cons_self _ _)
    obtain ⟨l, hl, hlen⟩ := csvRows_ok fieldnames n cn k0 k1 k3 k9 k10 rest
      (fun x hx => hall x (List.mem_cons_of_mem _ hx))
    refine ⟨b :: l, ?_, by simp [hlen]⟩
    simp [csvRows, hb, hl, bind, Except.bind]

/-! ## Claim theorems -/

/-- C6: semicircle-to-degree conversion computes
`degrees = semicircles * (180.0 / 2^31)` for every 32-bit semicircle value,
and the formatted decimal string strips trailing zeros and then a bare
trailing decimal point but never trailing non-zero digits (the characters
removed from the fixed-point rendering are exactly a run of dots — at most
the one the rendering contains — and a run of zeros); in particular input
`1073741824` formats as `"90"` and input `0` formats as `"0"`. -/
theorem C6_thm :
    (∀ s : Int, -(2 ^ 31) ≤ s → s < 2 ^ 31 →
      (semicircle_to_degrees s).toRat = degrees_spec s)
    ∧ format_float_str (semicircle_to_degrees 1073741824) = "90"
    ∧ format_float_str (semicircle_to_degrees 0) = "0"
    ∧ (∀ s : Int, ∃ j k : Nat,
        fixed10 (semicircle_to_degrees s)
          = format_float_str (semicircle_to_degrees s)
            ++ String.mk (List.replicate j '.') ++ String.mk (List.replicate k '0')) := by
  refine ⟨?_, by decide, by decide, ?_⟩
  · intro s _ _
    simp only [Dyadic.toRat, semicircle_to_degrees, degrees_spec]
    push_cast
    field_simp
    ring
  · intro s
    obtain ⟨k, hk⟩ := rstrip_spec (fixed10 (semicircle_to_degrees s)) '0'
    obtain ⟨j, hj⟩ := rstrip_spec (rstrip (fixed10 (semicircle_to_degrees s)) '0') '.'
    refine ⟨j, k, ?_⟩
    rw [hk, hj]
    rfl

theorem C6_witness :
    (semicircle_to_degrees 1073741824).toRat = degrees_spec 1073741824 :=
  C6_thm.1 1073741824 (by decide) (by decide)

/-- C7: a record message contributes a `Trackpoint` to a lap exactly when its
timestamp lies in the closed interval from the lap's start time to its end
time: the `Track` children of the element `add_tcx_lap` builds are precisely
the record stream filtered by `start_time ≤ tts ∧ tts ≤ end_time` (both
boundaries included, strict outliers excluded), in stream order. -/
theorem C7_thm (activity : FitActivity) (lap : LapMsg) :
    add_tcx_lap activity lap
      = XmlNode.elem "Lap" [("StartTime", isoZ lap.start_time)] none
          [XmlNode.elem "Track" [] none
            ((activity.records.filter (fun trackpoint =>
                decide (lap.start_time ≤ trackpoint.timestamp
                  ∧ trackpoint.timestamp ≤ lap.timestamp))).map trackpointElem)] := by
  simp only [add_tcx_lap]
  rw [foldl_append_filter (fun trackpoint : RecordMsg =>
    lap.start_time ≤ trackpoint.timestamp ∧ trackpoint.timestamp ≤ lap.timestamp)
    trackpointElem activity.records []]
  simp

/-- C9: a source file whose suffix matches none of the recognized formats is
skipped with a diagnostic: the dispatcher returns normally (no exception),
the file system — in particular the destination path — is untouched, and the
only effect is one printed message. -/
theorem C9_thm (fuel : Nat) (st : St) (name target : String)
    (h1 : pyEndsWith name ".fit.gz" = false) (h2 : pyEndsWith name ".tcx.gz" = false)
    (h3 : pyEndsWith name ".gpx.gz" = false) (h4 : pyEndsWith name ".fit" = false)
    (h5 : pyEndsWith name ".tcx" = false) (h6 : pyEndsWith name ".gpx" = false) :
    convert_activity (fuel + 1) st name target
      = ({ st with printed := st.printed
            ++ ["Unrecognized/unsupported file format: " ++ name ++ "\n"] }, .ok ()) :=
  convert_unrecognized_eval fuel st name target h1 h2 h3 h4 h5 h6

theorem C9_witness :
    convert_activity 1 ⟨fun _ => none, 0, [], [], 0, 0⟩ "activities/foo.unknownext" "out/a.gpx"
      = (⟨fun _ => none, 0,
            ["Unrecognized/unsupported file format: activities/foo.unknownext\n"], [], 0, 0⟩,
          .ok ()) := by
  have h := C9_thm 0 ⟨fun _ => none, 0, [], [], 0, 0⟩ "activities/foo.unknownext" "out/a.gpx"
    (by decide) (by decide) (by decide) (by decide) (by decide) (by decide)
  simpa using h

/-- C5: converting a plain `X.gpx` and converting `X.gpx.gz` holding a gzip of
the same bytes write the same content to the destination path (both runs
succeed, and the destination holds exactly the shared payload). -/
theorem C5_thm (fuel : Nat) (st : St) (x target : String) (d : FileData)
    (hplain : st.fs (x ++ ".gpx") = some d)
    (hgz : st.fs (x ++ ".gpx.gz") = some (.gz d))
    (htarget : pyStartsWith target "/tmp/tmp" = false) :
    (convert_activity (fuel + 1) st (x ++ ".gpx") target).1.fs target
        = (convert_activity (fuel + 2) st (x ++ ".gpx.gz") target).1.fs target
      ∧ (convert_activity (fuel + 1) st (x ++ ".gpx") target).1.fs target = some d
      ∧ (convert_activity (fuel + 1) st (x ++ ".gpx") target).2 = .ok ()
      ∧ (convert_activity (fuel + 2) st (x ++ ".gpx.gz") target).2 = .ok () := by
  have hA := convert_gpx_eval fuel st x target d hplain
  have hB := convert_gpxgz_eval fuel st x target d hgz
  have htne : target ≠ freshTempName st.tempCounter ".gpx" :=
    ne_freshTempName_of_not_startsWith target _ _ htarget
  refine ⟨?_, ?_, ?_, ?_⟩
  · rw [hA, hB]
    show fsWrite st.fs target d target = fsDelete _ (freshTempName st.tempCounter ".gpx") target
    rw [fsWrite_self, fsDelete_ne _ _ _ htne, fsWrite_self]
  · rw [hA]
    exact fsWrite_self st.fs target d
  · rw [hA]
  · rw [hB]

theorem C5_witness :
    (convert_activity 1
        ⟨fun n => if n = "a.gpx" then some (.textFile ["pts"])
          else if n = "a.gpx.gz" then some (.gz (.textFile ["pts"])) else none, 0, [], [], 0, 0⟩
        ("a" ++ ".gpx") "out/a.gpx").1.fs "out/a.gpx"
      = (convert_activity 2
          ⟨fun n => if n = "a.gpx" then some (.textFile ["pts"])
            else if n = "a.gpx.gz" then some (.gz (.textFile ["pts"])) else none, 0, [], [], 0, 0⟩
          ("a" ++ ".gpx.gz") "out/a.gpx").1.fs "out/a.gpx" :=
  (C5_thm 0
    ⟨fun n => if n = "a.gpx" then some (.textFile ["pts"])
      else if n = "a.gpx.gz" then some (.gz (.textFile ["pts"])) else none, 0, [], [], 0, 0⟩
    "a" "out/a.gpx" (.textFile ["pts"]) (by rfl) (by rfl) (by rfl)).1

/-- C3 counterexample: the dispatcher does not handle a second name-level gzip
layer.  A file named `a.gpx.gz.gz` (a gzip inside a gzip) is treated as an
unrecognized format: no gzip layer is decompressed, no temporary file is
created, no recursion happens, no output is produced — only a diagnostic is
printed.  This refutes "handles any nesting depth correctly". -/
theorem C3_counterexample :
    convert_activity 3
        ⟨fun n => if n = "a.gpx.gz.gz" then some (.gz (.gz (.textFile ["pts"]))) else none,
          0, [], [], 0, 0⟩
        "a.gpx.gz.gz" "out/a.gpx"
      = (⟨fun n => if n = "a.gpx.gz.gz" then some (.gz (.gz (.textFile ["pts"]))) else none,
            0, ["Unrecognized/unsupported file format: a.gpx.gz.gz\n"], [], 0, 0⟩,
          .ok ()) := by
  rfl

/-- C3 (amended): the dispatcher decompresses exactly one gzip layer.  For a
name ending in `.gpx.gz` (the `.fit.gz`/`.tcx.gz` branches are the same
dispatch arm) it decompresses one layer into a fresh temporary file whose
name keeps the four-character inner suffix, recurses once on that file, and
deletes it; the payload is written to the destination unchanged — so a
second content-level gzip layer is passed through still compressed, not
decompressed.  A name carrying a further `.gz` layer (ending `.gz.gz`) is
not dispatched to the gzip arm at all: it is skipped as unrecognized. -/
theorem C3_thm (fuel : Nat) (st : St) (x y target : String) (d : FileData)
    (hgz : st.fs (x ++ ".gpx.gz") = some (.gz d))
    (htarget : pyStartsWith target "/tmp/tmp" = false) :
    (convert_activity (fuel + 2) st (x ++ ".gpx.gz") target
        = ({ st with
              tempCounter := st.tempCounter + 1
              fs := fsDelete
                (fsWrite (fsWrite st.fs (freshTempName st.tempCounter ".gpx") d) target d)
                (freshTempName st.tempCounter ".gpx") }, .ok ()))
      ∧ (convert_activity (fuel + 2) st (x ++ ".gpx.gz") target).1.fs target = some d
      ∧ convert_activity (fuel + 1) st (y ++ ".gz.gz") target
          = ({ st with printed := st.printed
                ++ ["Unrecognized/unsupported file format: " ++ (y ++ ".gz.gz") ++ "\n"] },
              .ok ()) := by
  have hB := convert_gpxgz_eval fuel st x target d hgz
  have htne : target ≠ freshTempName st.tempCounter ".gpx" :=
    ne_freshTempName_of_not_startsWith target _ _ htarget
  refine ⟨hB, ?_, convert_gzgz_eval fuel st y target⟩
  rw [hB]
  show fsDelete _ (freshTempName st.tempCounter ".gpx") target = some d
  rw [fsDelete_ne _ _ _ htne, fsWrite_self]

theorem C3_witness :
    (convert_activity 2
        ⟨fun n => if n = "b.gpx.gz" then some (.gz (.gz (.textFile ["pts"]))) else none,
          0, [], [], 0, 0⟩
        ("b" ++ ".gpx.gz") "out/b.gpx").1.fs "out/b.gpx" = some (.gz (.textFile ["pts"])) :=
  (C3_thm 0
    ⟨fun n => if n = "b.gpx.gz" then some (.gz (.gz (.textFile ["pts"]))) else none,
      0, [], [], 0, 0⟩
    "b" "c" "out/b.gpx" (.gz (.textFile ["pts"])) (by rfl) (by rfl)).2.1

/-- C4 counterexample: temporary files are **not** deleted on exceptional
exits.  Converting `a.fit.gz` whose payload is a FIT stream with zero session
messages decompresses into the temporary file, the recursive conversion
raises `StopIteration`, the `os.unlink` after the recursive call is skipped,
and the run exits with the temporary file still present in the file
system. -/
theorem C4_counterexample :
    (convert_activity 2
        ⟨fun n => if n = "a.fit.gz" then some (.gz (.fitData ⟨[], [], []⟩)) else none,
          0, [], [], 0, 0⟩
        "a.fit.gz" "out/a.gpx").2 = .error .stopIteration
      ∧ (convert_activity 2
          ⟨fun n => if n = "a.fit.gz" then some (.gz (.fitData ⟨[], [], []⟩)) else none,
            0, [], [], 0, 0⟩
          "a.fit.gz" "out/a.gpx").1.fs "/tmp/tmp0.fit" = some (.fitData ⟨[], [], []⟩) := by
  exact ⟨rfl, rfl⟩

/-- C4 (amended): each pipeline temporary file is deleted on the *normal*
exit path of the operation that created it (shown here for the gzip arm:
after a successful `.gpx.gz` conversion the temporary file is gone), but on
an exceptional exit the `os.unlink` after the raising call is skipped and
the temporary file leaks (shown for a `.fit.gz` whose payload has no session
messages: the run errors and the decompressed temporary file survives).
Only the manifest temporary file's deletion (`clear_temp`) is guarded: a
deletion failure there is caught and printed, never raised, and leaves the
file in place. -/
theorem C4_thm (fuel : Nat) (st : St) (x y target stray : String) (d df : FileData)
    (laps : List LapMsg) (records : List RecordMsg) (verbose : Bool)
    (hgz : st.fs (x ++ ".gpx.gz") = some (.gz d))
    (hfit : st.fs (y ++ ".fit.gz") = some (.gz (.fitData ⟨[], laps, records⟩)))
    (hstray : st.fs stray = some df) :
    ((convert_activity (fuel + 2) st (x ++ ".gpx.gz") target).2 = .ok ()
      ∧ (convert_activity (fuel + 2) st (x ++ ".gpx.gz") target).1.fs
          (freshTempName st.tempCounter ".gpx") = none)
    ∧ ((convert_activity (fuel + 2) st (y ++ ".fit.gz") target).2 = .error .stopIteration
      ∧ (convert_activity (fuel + 2) st (y ++ ".fit.gz") target).1.fs
          (freshTempName st.tempCounter ".fit")
        = some (.fitData ⟨[], laps, records⟩))
    ∧ ((clear_temp verbose st stray true).fs stray = some df
      ∧ (clear_temp verbose st stray true).printed
          = (if verbose then st.printed ++ ["Removing tempfile: " ++ stray]
              else st.printed) ++ ["Error while deleting file"]) := by
  have hB := convert_gpxgz_eval fuel st x target d hgz
  have hF := convert_fitgz_nosession_eval fuel st y target laps records hfit
  refine ⟨⟨?_, ?_⟩, ⟨?_, ?_⟩, ?_, ?_⟩
  · rw [hB]
  · rw [hB]
    exact fsDelete_self _ _
  · rw [hF]
  · rw [hF]
    exact fsWrite_self _ _ _
  · cases verbose <;> simp [clear_temp, hstray]
  · cases verbose <;> simp [clear_temp, hstray]

theorem C4_witness :
    (convert_activity 2
        ⟨fun n => if n = "g.gpx.gz" then some (.gz (.textFile ["pts"]))
          else if n = "f.fit.gz" then some (.gz (.fitData ⟨[], [], []⟩))
          else if n = "/tmp/csv" then some .emptyFile else none, 0, [], [], 0, 0⟩
        ("g" ++ ".gpx.gz") "out/g.gpx").1.fs (freshTempName 0 ".gpx") = none :=
  (C4_thm 0
    ⟨fun n => if n = "g.gpx.gz" then some (.gz (.textFile ["pts"]))
      else if n = "f.fit.gz" then some (.gz (.fitData ⟨[], [], []⟩))
      else if n = "/tmp/csv" then some .emptyFile else none, 0, [], [], 0, 0⟩
    "g" "f" "out/g.gpx" "/tmp/csv" (.textFile ["pts"]) .emptyFile [] [] false
    (by rfl) (by rfl) (by rfl)).1.2

theorem pyIndex_cases {α : Type} (l : List α) (i : Nat) :
    (∃ f, pyIndex l i = .ok f) ∨ pyIndex l i = .error .indexError := by
  cases h : l[i]? <;> simp [pyIndex, h]

theorem mapstr_index_ok (header : List String) (tail : List PyKey) (i : Nat)
    (hi : i < (pyDedup header).length) :
    ∃ f, pyIndex ((pyDedup header).map PyKey.str ++ tail) i = .ok (PyKey.str f)
      ∧ f ∈ header := by
  have hlen : i < ((pyDedup header).map PyKey.str).length := by
    rw [List.length_map]
    exact hi
  cases hsome : (pyDedup header)[i]? with
  | none => exact absurd (List.getElem?_eq_none_iff.mp hsome) (by omega)
  | some f =>
    refine ⟨f, ?_, pyDedup_subset _ f (List.getElem?_mem hsome)⟩
    have h1 : ((pyDedup header).map PyKey.str ++ tail)[i]? = some (PyKey.str f) := by
      rw [List.getElem?_append_left hlen, List.getElem?_map, hsome]
      rfl
    simp [pyIndex, h1]

theorem dedup_rowKeys_prefix (header first : List String) :
    ∃ zs, pyDedup ((rowAssignments header first).map Prod.fst)
      = (pyDedup header).map PyKey.str ++ zs := by
  obtain ⟨zs, hzs⟩ := pyDedupAux_append_prefix (header.map PyKey.str)
    (if header.length < first.length then [PyKey.noneKey] else []) []
  refine ⟨zs, ?_⟩
  rw [rowAssignments_keys]
  show pyDedupAux _ [] = _
  rw [hzs]
  rw [show pyDedupAux (header.map PyKey.str) [] = pyDedup (header.map PyKey.str) from rfl,
    pyDedup_map PyKey.str (fun a b hab => by injection hab) header]

theorem keys_field_ok (header first : List String) (i : Nat)
    (hi : i < (pyDedup header).length) :
    ∃ f, pyIndex (pyDedup ((rowAssignments header first).map Prod.fst)
          ++ [PyKey.str "count", PyKey.str "csv_file_name"]) i
        = .ok (PyKey.str f)
      ∧ f ∈ header := by
  obtain ⟨zs, hzs⟩ := dedup_rowKeys_prefix header first
  obtain ⟨f, hf, hm⟩ :=
    mapstr_index_ok header (zs ++ [PyKey.str "count", PyKey.str "csv_file_name"]) i hi
  refine ⟨f, ?_, hm⟩
  rw [hzs, List.append_assoc]
  exact hf

theorem dedup_rowKeys_exact (header first : List String)
    (h : first.length ≤ header.length) :
    pyDedup ((rowAssignments header first).map Prod.fst)
      = (pyDedup header).map PyKey.str := by
  rw [rowAssignments_keys, if_neg (by omega), List.append_nil]
  exact pyDedup_map PyKey.str (fun a b hab => by injection hab) header

/-- C1 counterexample: manifest loading performs no column-count check at
all.  Tables with twelve and with thirteen columns (two different counts, so
at most one of them can be "the exact expected column count") both load
successfully, with no `ManifestSchemaError`-like failure. -/
theorem C1_counterexample :
    get_activities_csv
        ⟨["c0", "c1", "c2", "c3", "c4", "c5", "c6", "c7", "c8", "c9", "c10", "c11"],
          [["v0", "v1", "v2", "v3", "v4", "v5", "v6", "v7", "v8", "v9", "v10", "v11"]]⟩ "f.csv"
      = .ok [⟨.str "v0", .str "v3", .str "v1", .str "v9", .str "v10", 1, "f.csv"⟩]
    ∧ get_activities_csv
        ⟨["c0", "c1", "c2", "c3", "c4", "c5", "c6", "c7", "c8", "c9", "c10", "c11", "c12"],
          [["v0", "v1", "v2", "v3", "v4", "v5", "v6", "v7", "v8", "v9", "v10", "v11", "v12"]]⟩
        "f.csv"
      = .ok [⟨.str "v0", .str "v3", .str "v1", .str "v9", .str "v10", 1, "f.csv"⟩] := by
  exact ⟨by decide, by decide⟩

/-- C1 (amended): the loader never verifies an exact column count and raises
no schema error carrying the observed columns.  What actually happens: an
empty table loads as the empty list regardless of its header; any table
whose header has at least 11 distinct columns loads successfully, one
descriptor per row, whatever the row lengths (`DictReader` fills the
columns a short row is missing with `None` and collects a long row's
overflow under its `restkey`); a non-empty table with fewer than 11
distinct columns whose first row does not overflow the header fails — with
a positional `IndexError`, or a `KeyError` on the synthetic key `"count"`,
depending on how short the header is; an overflowing first row can even
make such a table load, because the `restkey` entry extends the key list
(shown for a ten-column header with an eleven-field row); and a loader
failure propagates out of `main` and aborts the whole run. -/
theorem C1_thm :
    (∀ (csv_file : Csv) (nm : String), csv_file.rows = [] →
      get_activities_csv csv_file nm = .ok [])
    ∧ (∀ (csv_file : Csv) (nm : String), 11 ≤ (pyDedup csv_file.header).length →
        ∃ l, get_activities_csv csv_file nm = .ok l ∧ l.length = csv_file.rows.length)
    ∧ (∀ (csv_file : Csv) (nm : String) (r : List String) (rest : List (List String)),
        csv_file.rows = r :: rest → (pyDedup csv_file.header).length < 11 →
        r.length ≤ csv_file.header.length →
        "count" ∉ csv_file.header → "csv_file_name" ∉ csv_file.header →
        (get_activities_csv csv_file nm = .error .indexError
          ∨ get_activities_csv csv_file nm = .error (.keyError "count")))
    ∧ get_activities_csv
        ⟨["c0", "c1", "c2", "c3", "c4", "c5", "c6", "c7", "c8", "c9"],
          [["v0", "v1", "v2", "v3", "v4", "v5", "v6", "v7", "v8", "v9", "v10"]]⟩ "f.csv"
      = .ok [⟨.str "v0", .str "v3", .str "v1", .str "v9", .strList ["v10"], 1, "f.csv"⟩]
    ∧ (∀ (csv_file : Csv) (nm : String) (st : St) (fuel : Nat) (args : Args)
        (zip_file : Option Zip) (uf : Bool) (e : PyError),
        get_activities_csv csv_file nm = .error e →
        main_run fuel args zip_file uf st csv_file nm = some (st, .error e)) := by
  refine ⟨?_, ?_, ?_, by decide, ?_⟩
  · intro csv nm h
    simp [get_activities_csv, h]
  · intro csv nm hlen
    by_cases hz : csv.rows.length = 0
    · exact ⟨[], by simp [get_activities_csv, hz], by simp [List.length_eq_zero.mp hz]⟩
    · obtain ⟨f0, h0, m0⟩ := keys_field_ok csv.header (csv.rows.head?.getD []) 0 (by omega)
      obtain ⟨f1, h1, m1⟩ := keys_field_ok csv.header (csv.rows.head?.getD []) 1 (by omega)
      obtain ⟨f3, h3, m3⟩ := keys_field_ok csv.header (csv.rows.head?.getD []) 3 (by omega)
      obtain ⟨f9, h9, m9⟩ := keys_field_ok csv.header (csv.rows.head?.getD []) 9 (by omega)
      obtain ⟨f10, h10, m10⟩ := keys_field_ok csv.header (csv.rows.head?.getD []) 10 (by omega)
      obtain ⟨l, hl, hlen'⟩ := csvRows_ok csv.header csv.rows.length nm
        (.str f0) (.str f1) (.str f3) (.str f9) (.str f10) csv.rows
        (fun x _ => csvRow_ok csv.header csv.rows.length nm f0 f1 f3 f9 f10 x
          m0 m1 m3 m9 m10)
      refine ⟨l, ?_, hlen'⟩
      simp [get_activities_csv, hz, h0, h1, h3, h9, h10, hl, bind, Except.bind]
  · intro csv nm r rest hr hlt hrl hcount hcsvname
    have hz : ¬ csv.rows.length = 0 := by
      rw [hr]
      simp
    have hhead : csv.rows.head?.getD [] = r := by
      rw [hr]
      rfl
    have hkeq : pyDedup ((rowAssignments csv.header (csv.rows.head?.getD [])).map Prod.fst)
          ++ [PyKey.str "count", PyKey.str "csv_file_name"]
        = (pyDedup csv.header).map PyKey.str
          ++ [PyKey.str "count", PyKey.str "csv_file_name"] := by
      rw [hhead, dedup_rowKeys_exact csv.header r hrl]
    rcases Nat.lt_or_ge (pyDedup csv.header).length 9 with h8 | h9plus
    · have hkl : ((pyDedup csv.header).map PyKey.str
          ++ [PyKey.str "count", PyKey.str "csv_file_name"]).length ≤ 10 := by
        simp only [List.length_append, List.length_map]
        simp
        omega
      have h10 : pyIndex (pyDedup ((rowAssignments csv.header (csv.rows.head?.getD [])).map Prod.fst)
          ++ [PyKey.str "count", PyKey.str "csv_file_name"]) 10 = .error .indexError := by
        rw [hkeq]
        simp [pyIndex, List.getElem?_eq_none hkl]
      rcases pyIndex_cases (pyDedup ((rowAssignments csv.header (csv.rows.head?.getD [])).map Prod.fst)
          ++ [PyKey.str "count", PyKey.str "csv_file_name"]) 0 with ⟨f0, h0⟩ | h0
      · rcases pyIndex_cases (pyDedup ((rowAssignments csv.header (csv.rows.head?.getD [])).map Prod.fst)
          ++ [PyKey.str "count", PyKey.str "csv_file_name"]) 1 with ⟨f1, h1⟩ | h1
        · rcases pyIndex_cases (pyDedup ((rowAssignments csv.header (csv.rows.head?.getD [])).map Prod.fst)
          ++ [PyKey.str "count", PyKey.str "csv_file_name"]) 3 with ⟨f3, h3⟩ | h3
          · rcases pyIndex_cases (pyDedup ((rowAssignments csv.header (csv.rows.head?.getD [])).map Prod.fst)
          ++ [PyKey.str "count", PyKey.str "csv_file_name"]) 9 with ⟨f9, h9⟩ | h9
            · left
              simp [get_activities_csv, hz, h0, h1, h3, h9, h10, bind, Except.bind]
            · left
              simp [get_activities_csv, hz, h0, h1, h3, h9, bind, Except.bind]
          · left
            simp [get_activities_csv, hz, h0, h1, h3, bind, Except.bind]
        · left
          simp [get_activities_csv, hz, h0, h1, bind, Except.bind]
      · left
        simp [get_activities_csv, hz, h0, bind, Except.bind]
    · have hL : (pyDedup csv.header).length = 9 ∨ (pyDedup csv.header).length = 10 := by
        omega
      obtain ⟨f0, h0, m0⟩ := keys_field_ok csv.header (csv.rows.head?.getD []) 0 (by omega)
      obtain ⟨f1, h1, m1⟩ := keys_field_ok csv.header (csv.rows.head?.getD []) 1 (by omega)
      obtain ⟨f3, h3, m3⟩ := keys_field_ok csv.header (csv.rows.head?.getD []) 3 (by omega)
      rw [hhead] at h0 h1 h3 hkeq
      obtain ⟨v0, hv0⟩ := pyDictGet_ok_of_mem csv.header r f0 m0
      obtain ⟨v1, hv1⟩ := pyDictGet_ok_of_mem csv.header r f1 m1
      obtain ⟨v3, hv3⟩ := pyDictGet_ok_of_mem csv.header r f3 m3
      have hgearKE : pyDictGet csv.header r (.str "count") = .error (.keyError "count") :=
        pyDictGet_keyError_of_not_mem csv.header r "count" hcount
      rcases hL with hL | hL
      · have h9c : pyIndex (pyDedup ((rowAssignments csv.header r).map Prod.fst)
          ++ [PyKey.str "count", PyKey.str "csv_file_name"]) 9 = .ok (PyKey.str "count") := by
          rw [hkeq]
          have hk : ((pyDedup csv.header).map PyKey.str
              ++ [PyKey.str "count", PyKey.str "csv_file_name"])[9]?
              = some (PyKey.str "count") := by
            rw [List.getElem?_append_right (by simp [hL])]
            simp [hL]
          simp [pyIndex, hk]
        have h10c : pyIndex (pyDedup ((rowAssignments csv.header r).map Prod.fst)
          ++ [PyKey.str "count", PyKey.str "csv_file_name"]) 10 = .ok (PyKey.str "csv_file_name") := by
          rw [hkeq]
          have hk : ((pyDedup csv.header).map PyKey.str
              ++ [PyKey.str "count", PyKey.str "csv_file_name"])[10]?
              = some (PyKey.str "csv_file_name") := by
            rw [List.getElem?_append_right (by simp [hL])]
            simp [hL]
          simp [pyIndex, hk]
        have hrow : csvRow csv.header (rest.length + 1) nm (.str f0) (.str f1) (.str f3)
            (.str "count") (.str "csv_file_name") r = .error (.keyError "count") := by
          simp [csvRow, hv0, hv1, hv3, hgearKE, bind, Except.bind]
        right
        simp [get_activities_csv, hz, h0, h1, h3, h9c, h10c, hr, csvRows, hrow,
          bind, Except.bind]
      · obtain ⟨f9, h9, m9⟩ := keys_field_ok csv.header (csv.rows.head?.getD []) 9 (by omega)
        rw [hhead] at h9
        obtain ⟨v9, hv9⟩ := pyDictGet_ok_of_mem csv.header r f9 m9
        have h10c : pyIndex (pyDedup ((rowAssignments csv.header r).map Prod.fst)
          ++ [PyKey.str "count", PyKey.str "csv_file_name"]) 10 = .ok (PyKey.str "count") := by
          rw [hkeq]
          have hk : ((pyDedup csv.header).map PyKey.str
              ++ [PyKey.str "count", PyKey.str "csv_file_name"])[10]?
              = some (PyKey.str "count") := by
            rw [List.getElem?_append_right (by simp [hL])]
            simp [hL]
          simp [pyIndex, hk]
        have hrow : csvRow csv.header (rest.length + 1) nm (.str f0) (.str f1) (.str f3)
            (.str f9) (.str "count") r = .error (.keyError "count") := by
          simp [csvRow, hv0, hv1, hv3, hv9, hgearKE, bind, Except.bind]
        right
        simp [get_activities_csv, hz, h0, h1, h3, h9, h10c, hr, csvRows, hrow,
          bind, Except.bind]
  · intro csv nm st fuel args zip_file uf e h
    simp [main_run, h]

theorem C1_witness :
    ∃ l, get_activities_csv
        ⟨["c0", "c1", "c2", "c3", "c4", "c5", "c6", "c7", "c8", "c9", "c10", "c11"],
          [["v0", "v1", "v2", "v3", "v4", "v5", "v6", "v7", "v8", "v9", "v10", "v11"]]⟩ "f.csv"
      = .ok l ∧ l.length = 1 :=
  C1_thm.2.1
    ⟨["c0", "c1", "c2", "c3", "c4", "c5", "c6", "c7", "c8", "c9", "c10", "c11"],
      [["v0", "v1", "v2", "v3", "v4", "v5", "v6", "v7", "v8", "v9", "v10", "v11"]]⟩ "f.csv"
    (by decide)

/-- C2 counterexample: per-activity conversion errors are **not** isolated.
In a two-activity run where the first activity's FIT source has zero session
messages, the `StopIteration` raised during its conversion propagates out of
the loop (nothing in `main` catches it): the run ends with that error, no
output is written for the first activity, and — against the claim — the
second (perfectly fine) activity is never converted. -/
theorem C2_counterexample :
    (main_loop 3 ⟨"export", "out", none, none, none, false⟩ none
        ⟨fun n => if n = "export/bad.fit" then some (.fitData ⟨[], [], []⟩)
          else if n = "export/good.gpx" then some (.textFile ["track"]) else none,
          0, [], [], 0, 0⟩
        [⟨"1", "Run", "2023-05-01 10:00:00", "", "bad.fit", 2, "activities.csv"⟩,
          ⟨"2", "Run", "2023-05-02 10:00:00", "", "good.gpx", 2, "activities.csv"⟩]).2
      = .error .stopIteration
    ∧ (main_loop 3 ⟨"export", "out", none, none, none, false⟩ none
        ⟨fun n => if n = "export/bad.fit" then some (.fitData ⟨[], [], []⟩)
          else if n = "export/good.gpx" then some (.textFile ["track"]) else none,
          0, [], [], 0, 0⟩
        [⟨"1", "Run", "2023-05-01 10:00:00", "", "bad.fit", 2, "activities.csv"⟩,
          ⟨"2", "Run", "2023-05-02 10:00:00", "", "good.gpx", 2, "activities.csv"⟩]).1.fs
        "out/2023-05-02T100000_Run_2.gpx" = none := by
  exact ⟨rfl, rfl⟩

/-- C2 (amended): per-activity conversion errors are not isolated: when one
iteration of the conversion loop raises, the loop stops there with that error
and no remaining activity is processed.  In particular a binary source with
zero session messages makes that activity's conversion raise `StopIteration`
(the dispatcher's state is returned unchanged), which then aborts the whole
run.  Only manifest/usage errors and per-activity conversion errors alike
abort; the only skip-and-continue paths are the filters, the empty-filename
row and the unrecognized-suffix diagnostic. -/
theorem C2_thm :
    (∀ (fuel : Nat) (args : Args) (zip_file : Option Zip) (st st1 : St) (a : ActivityRec)
        (e : PyError) (rest : List ActivityRec),
        main_step fuel args zip_file st a = (st1, .error e) →
        main_loop fuel args zip_file st (a :: rest) = (st1, .error e))
    ∧ (∀ (fuel : Nat) (st : St) (y target : String) (laps : List LapMsg)
        (records : List RecordMsg),
        st.fs (y ++ ".fit") = some (.fitData ⟨[], laps, records⟩) →
        convert_activity (fuel + 1) st (y ++ ".fit") target = (st, .error .stopIteration)) := by
  constructor
  · intro fuel args zip_file st st1 a e rest h
    simp [main_loop, h]
  · intro fuel st y target laps records h
    exact convert_fit_nosession_eval fuel st y target laps records h

theorem C2_witness :
    convert_activity 1
        ⟨fun n => if n = "bad.fit" then some (.fitData ⟨[], [], []⟩) else none, 0, [], [], 0, 0⟩
        ("bad" ++ ".fit") "out.gpx"
      = (⟨fun n => if n = "bad.fit" then some (.fitData ⟨[], [], []⟩) else none, 0, [], [], 0, 0⟩,
          .error .stopIteration) :=
  C2_thm.2 0
    ⟨fun n => if n = "bad.fit" then some (.fitData ⟨[], [], []⟩) else none, 0, [], [], 0, 0⟩
    "bad" "out.gpx" [] [] (by rfl)

/-- C10 counterexample: the claim does not hold for every row with an empty
source-filename field, because the date column is parsed *before* the
empty-filename check: a row with an empty filename and an unparseable date
aborts the loop with `ValueError` instead of being silently skipped. -/
theorem C10_counterexample :
    (main_step 1 ⟨"export", "out", none, none, none, false⟩ none
        ⟨fun _ => none, 0, [], [], 0, 0⟩
        ⟨"1", "Run", "", "", "", 1, "activities.csv"⟩).2 = .error .valueError := by
  rfl

/-- C10 (amended): for every manifest row whose source-filename field is
empty *and whose date field parses*, the loop silently skips the row before
any filtering: the only state changes are the row counter and the progress
line; nothing is printed, the filtered counter stays put, the file system is
untouched, and no error is raised. -/
theorem C10_thm (fuel : Nat) (args : Args) (zip_file : Option Zip) (st : St)
    (activity : ActivityRec) (d : DateTime)
    (hname : activity.filename = "") (hdate : date_format activity.date = .ok d) :
    main_step fuel args zip_file st activity
      = ({ st with
            activity_control_var := st.activity_control_var + 1
            progress := st.progress
              ++ [progressMsg (st.activity_control_var + 1) activity.activity_count] },
          .ok ()) := by
  simp [main_step, hdate, hname]

theorem C10_witness :
    main_step 1 ⟨"export", "out", none, none, none, false⟩ none
        ⟨fun _ => none, 0, [], [], 0, 0⟩
        ⟨"7", "Run", "2023-01-02 03:04:05", "", "", 5, "activities.csv"⟩
      = (⟨fun _ => none, 0, [], [progressMsg 1 5], 1, 0⟩, .ok ()) := by
  have h := C10_thm 1 ⟨"export", "out", none, none, none, false⟩ none
    ⟨fun _ => none, 0, [], [], 0, 0⟩
    ⟨"7", "Run", "2023-01-02 03:04:05", "", "", 5, "activities.csv"⟩
    ⟨2023, 1, 2, 3, 4, 5, 0⟩ (by rfl) (by decide)
  simpa using h

/-- C8: an activity (with a non-empty source filename and a parseable date)
is handed to conversion by the main loop exactly when all three filter
predicates return `true`; when any predicate fails the loop skips the
activity (file system untouched, filtered counter bumped, no conversion),
and each predicate returns `true` whenever its filter set is `None` or
empty, regardless of the attribute value. -/
theorem C8_thm (fuel : Nat) (args : Args) (zip_file : Option Zip) (st : St)
    (activity : ActivityRec) (d : DateTime)
    (hname : activity.filename ≠ "")
    (hdate : date_format activity.date = .ok d) :
    ((matches_filter_years (strftimeCompact d) args.filter_years
        && matches_filter_types activity args.filter_types
        && matches_filter_gear activity args.filter_gear) = false →
      (main_step fuel args zip_file st activity).2 = .ok ()
        ∧ (main_step fuel args zip_file st activity).1.fs = st.fs
        ∧ (main_step fuel args zip_file st activity).1.filter_control_var
            = st.filter_control_var + 1
        ∧ (main_step fuel args zip_file st activity).1.tempCounter = st.tempCounter)
    ∧ ((matches_filter_years (strftimeCompact d) args.filter_years
        && matches_filter_types activity args.filter_types
        && matches_filter_gear activity args.filter_gear) = true →
      ∃ st1, main_step fuel args zip_file st activity
          = check_zip fuel st1 zip_file
              (args.output_dir ++ "/"
                ++ (strftimeCompact d ++ "_" ++ activity.type ++ "_" ++ activity.id ++ ".gpx"))
              (if zip_file.isNone then args.strava_export ++ "/" ++ activity.filename
                else activity.filename)
        ∧ st1.fs = st.fs ∧ st1.filter_control_var = st.filter_control_var
        ∧ st1.tempCounter = st.tempCounter)
    ∧ (∀ (b : ActivityRec) (s : String),
        matches_filter_types b none = true ∧ matches_filter_types b (some []) = true
        ∧ matches_filter_years s none = true ∧ matches_filter_years s (some []) = true
        ∧ matches_filter_gear b none = true ∧ matches_filter_gear b (some []) = true) := by
  refine ⟨?_, ?_, ?_⟩
  · intro hfail
    cases hy : matches_filter_years (strftimeCompact d) args.filter_years with
    | false =>
      cases hv : args.verbose
      all_goals refine ⟨?_, ?_, ?_, ?_⟩
      all_goals simp [main_step, hdate, hname, hy, hv]
    | true =>
      cases ht : matches_filter_types activity args.filter_types with
      | false =>
        cases hv : args.verbose
        all_goals refine ⟨?_, ?_, ?_, ?_⟩
        all_goals simp [main_step, hdate, hname, hy, ht, hv]
      | true =>
        cases hg : matches_filter_gear activity args.filter_gear with
        | false =>
          cases hv : args.verbose
          all_goals refine ⟨?_, ?_, ?_, ?_⟩
          all_goals simp [main_step, hdate, hname, hy, ht, hg, hv]
        | true =>
          rw [hy, ht, hg] at hfail
          simp at hfail
  · intro hpass
    simp only [Bool.and_eq_true] at hpass
    obtain ⟨⟨hy, ht⟩, hg⟩ := hpass
    cases hv : args.verbose with
    | false =>
      refine ⟨{ st with
          activity_control_var := st.activity_control_var + 1
          progress := st.progress
            ++ [progressMsg (st.activity_control_var + 1) activity.activity_count] },
        ?_, rfl, rfl, rfl⟩
      simp [main_step, hdate, hname, hy, ht, hg, hv]
    | true =>
      refine ⟨{ st with
          activity_control_var := st.activity_control_var + 1
          progress := st.progress
            ++ [progressMsg (st.activity_control_var + 1) activity.activity_count]
          printed := st.printed
            ++ ["Converting "
                ++ (if zip_file.isNone then args.strava_export ++ "/" ++ activity.filename
                    else activity.filename)
                ++ " to "
                ++ (args.output_dir ++ "/"
                    ++ (strftimeCompact d ++ "_" ++ activity.type ++ "_" ++ activity.id
                      ++ ".gpx"))] },
        ?_, rfl, rfl, rfl⟩
      simp [main_step, hdate, hname, hy, ht, hg, hv]
  · intro b s
    refine ⟨?_, ?_, ?_, ?_, ?_, ?_⟩
    all_goals simp [matches_filter_types, matches_filter_years, matches_filter_gear, pyFalsy]

theorem C8_witness :
    matches_filter_types ⟨"1", "Run", "2023-05-01 10:00:00", "g", "a.gpx", 1, "c"⟩ none = true
    ∧ matches_filter_types ⟨"1", "Run", "2023-05-01 10:00:00", "g", "a.gpx", 1, "c"⟩
        (some []) = true
    ∧ matches_filter_years "2023" none = true
    ∧ matches_filter_years "2023" (some []) = true
    ∧ matches_filter_gear ⟨"1", "Run", "2023-05-01 10:00:00", "g", "a.gpx", 1, "c"⟩ none = true
    ∧ matches_filter_gear ⟨"1", "Run", "2023-05-01 10:00:00", "g", "a.gpx", 1, "c"⟩
        (some []) = true :=
  (C8_thm 1 ⟨"export", "out", none, none, none, false⟩ none ⟨fun _ => none, 0, [], [], 0, 0⟩
    ⟨"1", "Run", "2023-05-01 10:00:00", "g", "a.gpx", 1, "c"⟩ ⟨2023, 5, 1, 10, 0, 0, 0⟩
    (by decide) (by decide)).2.2
    ⟨"1", "Run", "2023-05-01 10:00:00", "g", "a.gpx", 1, "c"⟩ "2023"
